import Mathlib

/-!
Verification development for the procurement chatbot (`Assignment/demo5.py`).

The Python program is shallowly embedded as follows.

* Python `float` amounts are modelled as exact rationals `ℚ`.  All amounts the
  program manipulates are currency values; the claims under study do not
  depend on binary floating-point rounding, and `float('nan')` / missing
  values are modelled by `Option ℚ` (`none` = NaN/missing), mirroring
  pandas' "missing" semantics (sums skip `none`, `pd.isna` tests for it).
* Python's builtin `float(s)` is modelled as a parser of plain decimal
  notation (optional sign, digits, optional fractional part).  The special
  literals (`inf`, `nan`, exponent notation, underscores) are outside the
  model; no string the program itself produces uses them.
* Python exceptions are modelled with `Except String String`: a handler body
  that raises is `Except.error msg`; `chatbot_response` is the `try/except`
  at the router boundary.
* The pandas DataFrame is a list of typed rows plus a flag recording whether
  the derived `Item_Clean` column has been added (the only column any
  handler ever adds; its values are a pure function of `Item Name`, so the
  flag suffices to model the mutation).
* Text columns are modelled as present strings (the CSV-sourced data has no
  null text fields); consequently the `na=` flags of `str.contains` are
  inert.  Successive `str.replace('$','').replace(',','')` calls are
  modelled as filtering those characters out, and `str.contains(pat)` with
  the literal, metacharacter-free patterns the program passes is modelled
  as a substring test.
* Each `re.search` pattern of the source is transcribed into a small regex
  AST (`RE`) executed by a backtracking matcher whose result order realises
  Python's leftmost search and its alternation/greedy/lazy priorities.
-/

/-! ### Basic string helpers -/

/-- Substring test: does `needle` occur contiguously inside `hay`?  Models
Python's `in` on strings and pandas `str.contains` with a literal pattern. -/
def listContains (hay needle : List Char) : Bool :=
  needle.isPrefixOf hay ||
    match hay with
    | [] => false
    | _ :: t => listContains t needle

/-- `strContains hay needle` models Python `needle in hay`. -/
def strContains (hay needle : String) : Bool :=
  listContains hay.data needle.data

/-- Python `str.lower()` (ASCII case folding, which covers this dataset). -/
def pyLower (s : String) : String := ⟨s.data.map Char.toLower⟩

/-- Python `str.upper()`. -/
def pyUpper (s : String) : String := ⟨s.data.map Char.toUpper⟩

/-- Whitespace for Python `str.strip()`. -/
def isPySpace (c : Char) : Bool :=
  c = ' ' || c = '\t' || c = '\n' || c = '\r' || c = '\x0b' || c = '\x0c'

/-- Python `str.strip()`: leading and trailing whitespace removed. -/
def pyStrip (s : String) : String :=
  ⟨((s.data.dropWhile isPySpace).reverse.dropWhile isPySpace).reverse⟩

/-- Case-insensitive containment, modelling `str.contains(x, case=False)`
and the `.lower()`-then-`in` idiom. -/
def strContainsCI (hay needle : String) : Bool :=
  strContains (pyLower hay) (pyLower needle)

/-- Python `str.title()`: first letter of every alphabetic run uppercased,
the rest lowercased. -/
def titleChars : Bool → List Char → List Char
  | _, [] => []
  | prevAlpha, c :: t =>
    if c.isAlpha then
      (if prevAlpha then c.toLower else c.toUpper) :: titleChars true t
    else
      c :: titleChars false t

/-- Python `str.title()`. -/
def pyTitle (s : String) : String := ⟨titleChars false s.data⟩

/-- One step of Python `str.split(sep)`: the segment before the first
occurrence of `sep` and the remainder after it, if `sep` occurs. -/
def splitOnce (sep : List Char) : List Char → Option (List Char × List Char)
  | [] => if sep.isPrefixOf [] then some ([], []) else none
  | c :: t =>
    if sep.isPrefixOf (c :: t) then some ([], (c :: t).drop sep.length)
    else match splitOnce sep t with
      | some (pre, post) => some (c :: pre, post)
      | none => none

/-- Python `str.split(sep)` for a non-empty separator (fuelled recursion on
the shrinking remainder). -/
def splitAll (fuel : ℕ) (sep s : List Char) : List (List Char) :=
  match fuel with
  | 0 => [s]
  | fuel + 1 =>
    match splitOnce sep s with
    | some (pre, post) => pre :: splitAll fuel sep post
    | none => [s]

/-- Python `str.split(sep)` (the separators used by the program are all
non-empty literals). -/
def pySplit (s sep : String) : List String :=
  (splitAll (s.data.length + 1) sep.data s.data).map (fun l => ⟨l⟩)

/-! ### Digit strings and decimal parsing -/

/-- Digit character of a single decimal digit. -/
def digitChar : ℕ → Char
  | 0 => '0' | 1 => '1' | 2 => '2' | 3 => '3' | 4 => '4'
  | 5 => '5' | 6 => '6' | 7 => '7' | 8 => '8' | _ => '9'

/-- Numeric value of a digit character. -/
def digitVal (c : Char) : ℕ :=
  match c with
  | '0' => 0 | '1' => 1 | '2' => 2 | '3' => 3 | '4' => 4
  | '5' => 5 | '6' => 6 | '7' => 7 | '8' => 8 | _ => 9

/-- Little-endian digit characters of `n`, structurally recursive on a
fuel that only needs to dominate the digit count (`n` itself suffices). -/
def natDigitsAux : ℕ → ℕ → List Char
  | 0, _ => []
  | fuel + 1, n =>
    if n = 0 then [] else digitChar (n % 10) :: natDigitsAux fuel (n / 10)

/-- Decimal digit string of a natural number (most significant first). -/
def natDigits (n : ℕ) : List Char :=
  if n = 0 then ['0'] else (natDigitsAux n n).reverse

/-- Value of a (big-endian) digit character string. -/
def natVal (l : List Char) : ℕ :=
  l.foldl (fun acc c => 10 * acc + digitVal c) 0

/-- Render a natural number in decimal (model of Python's `str`/`f"{n}"`). -/
def natStr (n : ℕ) : String := ⟨natDigits n⟩

/-- Render an integer in decimal. -/
def intStr (i : ℤ) : String :=
  (if i < 0 then "-" else "") ++ natStr i.natAbs

/-- The unsigned part of the decimal grammar `float` accepts: digits, an
optional point and fraction digits (at least one digit in total). -/
def parseDecimalCore (l : List Char) : Option ℚ :=
  let intPart := l.takeWhile Char.isDigit
  let rest := l.dropWhile Char.isDigit
  match rest with
  | [] => if intPart.isEmpty then none else some (natVal intPart)
  | '.' :: fr =>
    if fr.all Char.isDigit && !(intPart.isEmpty && fr.isEmpty) then
      some ((natVal intPart : ℚ) + (natVal fr : ℚ) / (10 : ℚ) ^ fr.length)
    else none
  | _ => none

/-- Plain decimal parser modelling Python's `float` on ordinary decimal
notation: optional sign, then digits, an optional point and fraction digits
(at least one digit overall).  Anything else is a `ValueError` (`none`). -/
def parseDecimal (l : List Char) : Option ℚ :=
  match l with
  | '-' :: t => (parseDecimalCore t).map (fun q => -q)
  | '+' :: t => parseDecimalCore t
  | _ => parseDecimalCore l

/-- Python `float(s)` on a string (leading/trailing whitespace stripped). -/
def pyFloat (s : String) : Option ℚ := parseDecimal (pyStrip s).data

/-! ### Currency formatting (`format_currency` and `f"{x:,.2f}"`) -/

/-- Round to cents, ties to even, as Python's float formatting does. -/
def roundCents (q : ℚ) : ℤ :=
  let x := q * 100
  let n := ⌊x⌋
  let r := x - n
  if r < 1/2 then n
  else if 1/2 < r then n + 1
  else if n % 2 = 0 then n else n + 1

/-- Insert thousands separators into a reversed digit list (`f"{n:,}"`
groups the decimal digits in threes from the right). -/
def group3 : List Char → List Char
  | a :: b :: c :: d :: rest => a :: b :: c :: ',' :: group3 (d :: rest)
  | l => l

/-- Decimal digits of `n` with thousands separators. -/
def commaDigits (n : ℕ) : List Char := (group3 (natDigits n).reverse).reverse

/-- Two-digit cents field. -/
def pad2 (m : ℕ) : List Char := [digitChar (m / 10), digitChar (m % 10)]

/-- Render an integer number of cents the way `f"{x:,.2f}"` renders the
corresponding amount: sign, comma-grouped units, point, two cent digits. -/
def centsRender (c : ℤ) : String :=
  ⟨(if c < 0 then ['-'] else []) ++ commaDigits (c.natAbs / 100) ++
    '.' :: pad2 (c.natAbs % 100)⟩

/-- `f"{q:,.2f}"` on a (non-missing) amount. -/
def fmtComma2 (q : ℚ) : String := centsRender (roundCents q)

/-- `f"${q:,.2f}"`: dollar sign then the formatted amount. -/
def moneyStr (q : ℚ) : String := "$" ++ fmtComma2 q

/-- `f"${v:,.2f}"` on a possibly-missing float (`NaN` prints as `nan`). -/
def moneyStrOpt (v : Option ℚ) : String :=
  match v with
  | none => "$nan"
  | some q => moneyStr q

/-- Python `str(x)` on a possibly-missing float, used only in display
positions (`nan` for missing; integers print with a trailing `.0`). -/
def floatStr (v : Option ℚ) : String :=
  match v with
  | none => "nan"
  | some q => if q.den = 1 then intStr q.num ++ ".0" else centsRender (roundCents q)

/-- A Python value passed to `format_currency`: a float, a string, or a
missing value (`None`/`NaN`, detected by `pd.isna`). -/
inductive PyVal where
  | num (q : ℚ)
  | str (s : String)
  | missing
deriving DecidableEq

/-- The two `str.replace` calls of `format_currency` strip every dollar sign
and comma from a string value. -/
def stripCurrencyChars (s : String) : String :=
  ⟨s.data.filter (fun c => !(c = '$' || c = ','))⟩

/-- `format_currency` (demo5.py lines 17-26): missing values format as
`"$0.00"`; strings are stripped of `$` and `,` and parsed as floats, a parse
failure (`ValueError`) also yielding `"$0.00"`; numbers are formatted as
`f"${amount:,.2f}"`. -/
def format_currency (amount : PyVal) : String :=
  match amount with
  | .missing => "$0.00"
  | .num q => moneyStr q
  | .str s =>
    match pyFloat (stripCurrencyChars s) with
    | some q => moneyStr q
    | none => "$0.00"

/-! ### Dates and the dataset loader -/

/-- A parsed calendar date (the result of
`pd.to_datetime(..., format="%m/%d/%Y")`). -/
structure Date where
  month : ℕ
  day : ℕ
  year : ℕ
deriving DecidableEq

/-- Gregorian leap-year rule. -/
def isLeap (y : ℕ) : Bool := (y % 4 = 0 && y % 100 ≠ 0) || y % 400 = 0

/-- Days in a month. -/
def daysInMonth (m y : ℕ) : ℕ :=
  if m = 2 then (if isLeap y then 29 else 28)
  else if m = 4 || m = 6 || m = 9 || m = 11 then 30
  else 31

/-- Strict `%m/%d/%Y` parse: three `/`-separated all-digit fields (month and
day of one or two digits, four-digit year) making a valid calendar date;
anything else is coerced to `NaT` (`none`), as `errors='coerce'` does. -/
def parseDate (s : String) : Option Date :=
  match (pySplit s "/").map String.data with
  | [ms, ds, ys] =>
    if ms.all Char.isDigit && ds.all Char.isDigit && ys.all Char.isDigit &&
        decide (1 ≤ ms.length) && decide (ms.length ≤ 2) &&
        decide (1 ≤ ds.length) && decide (ds.length ≤ 2) &&
        decide (ys.length = 4) then
      let m := natVal ms
      let d := natVal ds
      let y := natVal ys
      if 1 ≤ m && m ≤ 12 && 1 ≤ d && d ≤ daysInMonth m y then
        some ⟨m, d, y⟩
      else none
    else none
  | _ => none

/-- `d.strftime('%Y-%m-%d')`. -/
def dateISO (d : Date) : String :=
  natStr d.year ++ "-" ++ ⟨pad2 d.month⟩ ++ "-" ++ ⟨pad2 d.day⟩

/-- `d.strftime('%m/%d/%Y')`. -/
def dateUS (d : Date) : String :=
  ⟨pad2 d.month⟩ ++ "/" ++ ⟨pad2 d.day⟩ ++ "/" ++ natStr d.year

/-- Python `str` of a pandas midnight Timestamp, as printed when a date is
interpolated into an f-string. -/
def dateFull (d : Date) : String := dateISO d ++ " 00:00:00"

/-- Lexicographic order on dates. -/
def dateLE (a b : Date) : Bool :=
  decide (a.year < b.year) ||
    (a.year = b.year &&
      (decide (a.month < b.month) || (a.month = b.month && a.day ≤ b.day)))

/-- One raw record as fetched from the store, before cleaning.  Text fields
are strings; `Quantity` is already numeric in the store (missing = `none`);
prices and the purchase date arrive as raw strings. -/
structure RawRow where
  requisitionNumber : String
  purchaseOrderNumber : String
  supplierCode : String
  supplierName : String
  supplierZip : String
  supplierQualifications : String
  calCard : String
  itemName : String
  itemDescription : String
  quantity : Option ℚ
  unitPriceRaw : String
  totalPriceRaw : String
  purchaseDateRaw : String
  acquisitionMethod : String
  subAcquisitionMethod : String
  acquisitionType : String
  classificationCodes : String
  normalizedUNSPSC : String
  segmentTitle : String
  familyTitle : String
  classTitle : String
  commodityTitle : String
  departmentName : String
  location : String
  fiscalYear : String
  lpaNumber : String
deriving DecidableEq

/-- One cleaned row of the cached table, after `load_procurement_data`:
parsed purchase date with derived year/month/quarter, numeric prices,
case-normalised supplier name / qualifications / CalCard. -/
structure Row where
  requisitionNumber : String
  purchaseOrderNumber : String
  supplierCode : String
  supplierName : String
  supplierZip : String
  supplierQualifications : String
  calCard : String
  itemName : String
  itemDescription : String
  quantity : Option ℚ
  unitPrice : Option ℚ
  totalPrice : Option ℚ
  purchaseDate : Date
  year : ℕ
  month : ℕ
  quarter : ℕ
  acquisitionMethod : String
  subAcquisitionMethod : String
  acquisitionType : String
  classificationCodes : String
  normalizedUNSPSC : String
  segmentTitle : String
  familyTitle : String
  classTitle : String
  commodityTitle : String
  departmentName : String
  location : String
  fiscalYear : String
  lpaNumber : String
deriving DecidableEq

/-- The in-memory table: the cleaned rows, plus whether the derived
`Item_Clean` column has been added to the cached object (it starts absent
and is only ever added by the item-spending handler). -/
structure DataFrame where
  rows : List Row
  hasItemClean : Bool
deriving DecidableEq

/-- `pd.to_numeric(x.astype(str).str.replace('$','').str.replace(',',''),
errors='coerce')` on one value. -/
def cleanPrice (s : String) : Option ℚ := pyFloat (stripCurrencyChars s)

/-- The derived `Item_Clean` value of a row:
`astype(str).str.lower().str.strip()` of the item name. -/
def itemClean (r : Row) : String := pyStrip (pyLower r.itemName)

/-- Clean one raw record (demo5.py lines 73-91): parse the purchase date
(dropping the row when it does not parse or its year is outside 2012-2015),
derive year/month/quarter, parse the prices, normalise supplier name (strip
+ lower), zip (strip), qualifications (strip + upper) and CalCard (upper +
strip). -/
def cleanRow (rr : RawRow) : Option Row :=
  match parseDate rr.purchaseDateRaw with
  | none => none
  | some d =>
    if 2012 ≤ d.year && d.year ≤ 2015 then
      some
        { requisitionNumber := rr.requisitionNumber
          purchaseOrderNumber := rr.purchaseOrderNumber
          supplierCode := rr.supplierCode
          supplierName := pyLower (pyStrip rr.supplierName)
          supplierZip := pyStrip rr.supplierZip
          supplierQualifications := pyUpper (pyStrip rr.supplierQualifications)
          calCard := pyStrip (pyUpper rr.calCard)
          itemName := rr.itemName
          itemDescription := rr.itemDescription
          quantity := rr.quantity
          unitPrice := cleanPrice rr.unitPriceRaw
          totalPrice := cleanPrice rr.totalPriceRaw
          purchaseDate := d
          year := d.year
          month := d.month
          quarter := (d.month - 1) / 3 + 1
          acquisitionMethod := rr.acquisitionMethod
          subAcquisitionMethod := rr.subAcquisitionMethod
          acquisitionType := rr.acquisitionType
          classificationCodes := rr.classificationCodes
          normalizedUNSPSC := rr.normalizedUNSPSC
          segmentTitle := rr.segmentTitle
          familyTitle := rr.familyTitle
          classTitle := rr.classTitle
          commodityTitle := rr.commodityTitle
          departmentName := rr.departmentName
          location := rr.location
          fiscalYear := rr.fiscalYear
          lpaNumber := rr.lpaNumber }
    else none

/-- `load_procurement_data` (demo5.py lines 59-96), as a function of the raw
records the store yields: clean every record, dropping those whose purchase
date is invalid or outside the supported 2012-2015 window.  A store failure
is the `raw = []` case, which produces the empty table. -/
def load_procurement_data (raw : List RawRow) : DataFrame :=
  ⟨raw.filterMap cleanRow, false⟩

/-! ### Aggregation helpers (groupby / nlargest / value_counts / idxmax) -/

/-- Sum of a numeric column over rows, skipping missing values; the sum of
an empty or all-missing selection is `0`, exactly as pandas `Series.sum()`
with its default `skipna=True, min_count=0`. -/
def sumCol (val : Row → Option ℚ) (rows : List Row) : ℚ :=
  (rows.map (fun r => (val r).getD 0)).sum

/-- Stable insertion into a list sorted descending by `key`: the new element
goes after every element of not-smaller key already present. -/
def insertDescBy {α β : Type} [LinearOrder β] (key : α → β) (x : α) :
    List α → List α
  | [] => [x]
  | y :: t => if key x ≤ key y then y :: insertDescBy key x t else x :: y :: t

/-- Stable sort, descending by `key` (elements of equal key keep their
input order). -/
def stableSortDescBy {α β : Type} [LinearOrder β] (key : α → β)
    (l : List α) : List α :=
  l.foldl (fun acc x => insertDescBy key x acc) []

/-- Stable ascending insertion (used for the `groupby` key sort). -/
def insertAscBy {α β : Type} [LinearOrder β] (key : α → β) (x : α) :
    List α → List α
  | [] => [x]
  | y :: t => if key y ≤ key x then y :: insertAscBy key x t else x :: y :: t

/-- Stable ascending sort by `key`. -/
def sortAscBy {α β : Type} [LinearOrder β] (key : α → β) (l : List α) :
    List α :=
  l.foldl (fun acc x => insertAscBy key x acc) []

/-- Fuelled kernel of `distinctFE`; the fuel only needs to cover the list
length. -/
def distinctFEAux {α : Type} [DecidableEq α] : ℕ → List α → List α
  | _, [] => []
  | 0, l => l
  | fuel + 1, x :: t => x :: distinctFEAux fuel (t.filter (fun y => y ≠ x))

/-- Distinct values in first-encounter order (pandas `unique` /
`drop_duplicates`). -/
def distinctFE {α : Type} [DecidableEq α] (l : List α) : List α :=
  distinctFEAux l.length l

/-- `df.groupby(key)[col].sum()`: one `(key, sum)` pair per distinct key,
keys sorted ascending (pandas `groupby` default `sort=True`); each group sum
skips missing values (absent values sum to `0`). -/
def groupSumBy {κ : Type} [DecidableEq κ] [LinearOrder κ] (key : Row → κ)
    (val : Row → Option ℚ) (rows : List Row) : List (κ × ℚ) :=
  (sortAscBy id (distinctFE (rows.map key))).map
    (fun k => (k, sumCol val (rows.filter (fun r => key r = k))))

/-- `Series.nlargest(n)` with its default `keep='first'`: the `n` largest
entries, ties resolved toward the earlier position in the series. -/
def nlargest (n : ℕ) (s : List (κ × ℚ)) : List (κ × ℚ) :=
  (stableSortDescBy Prod.snd s).take n

/-- `Series.value_counts()`: occurrence counts of the distinct values,
sorted descending by count. -/
def valueCounts (l : List String) : List (String × ℕ) :=
  stableSortDescBy Prod.snd
    ((distinctFE l).map (fun v => (v, (l.filter (fun x => x = v)).length)))

/-- `Series.idxmax()` over a grouped-sum series: the first key attaining the
maximal value; raises `ValueError` on an empty series. -/
def idxmaxPairs {κ : Type} (s : List (κ × ℚ)) : Except String (κ × ℚ) :=
  match s with
  | [] => .error "ValueError: attempt to get argmax of an empty sequence"
  | p :: t =>
    .ok (t.foldl (fun best q => if best.2 < q.2 then q else best) p)

/-- `df.loc[df[col].idxmax()]`: the first row attaining the maximum of a
numeric column, missing values skipped; all-missing raises. -/
def idxmaxRow (val : Row → Option ℚ) (rows : List Row) :
    Except String Row :=
  match rows.filter (fun r => (val r).isSome) with
  | [] => .error "ValueError: attempt to get argmax of an empty sequence"
  | r :: t =>
    .ok ((r :: t).foldl
      (fun best q =>
        if ((val best).getD 0) < ((val q).getD 0) then q else best) r)

/-- `series.mode()[0]`: among the most frequent values the smallest
(pandas sorts the modes ascending); an empty selection raises. -/
def modeFirst (l : List String) : Except String String :=
  match valueCounts l with
  | [] => .error "IndexError: index 0 is out of bounds"
  | (v, c) :: t =>
    .ok ((t.filter (fun p => p.2 = c)).foldl
      (fun best p => if p.1 < best then p.1 else best) v)

/-- `df.iloc[0]` on a row selection. -/
def ilocHead (rows : List Row) : Except String Row :=
  match rows with
  | [] => .error "IndexError: single positional indexer is out-of-bounds"
  | r :: _ => .ok r

/-- Python `int(x)` on a float: truncation toward zero. -/
def pyInt (q : ℚ) : ℤ := q.num / (q.den : ℤ)

/-! ### A small regex engine

Each `re.search` pattern in the source is transcribed into this AST.  Every
quantifier the source's patterns use (`+`, `+?`, `*`, `{n}`, `{n,m}`)
quantifies either a fixed literal or a single-character class, so the AST
offers exactly those forms: quantified character classes (with greedy and
lazy variants) and bounded repetition via sequencing.  The backtracking
matcher returns candidate matches in Python's priority order (alternation
prefers its left branch, greedy quantifiers prefer longer matches, lazy
quantifiers shorter ones), and the search scans start positions left to
right, so the head of the result list is exactly the match Python's
`re.search` yields. -/

/-- Regex AST: empty word, end anchor, literal, single-character class,
sequencing, prioritised alternation, greedy/lazy star and plus of a
character class, and capture groups. -/
inductive RE where
  | eps
  | eos
  | lit (s : List Char)
  | cls (p : Char → Bool)
  | seq (a b : RE)
  | alt (a b : RE)
  | starCG (p : Char → Bool)
  | starCL (p : Char → Bool)
  | plusCG (p : Char → Bool)
  | plusCL (p : Char → Bool)
  | group (i : ℕ) (a : RE)

/-- Capture assignment: group index to captured characters. -/
abbrev Caps := List (ℕ × List Char)

/-- The suffixes of `s` after consuming `1, 2, ...` leading characters
satisfying `p` (lazy order: fewest consumed first). -/
def expansions (p : Char → Bool) : List Char → List (List Char)
  | [] => []
  | c :: t => if p c then t :: expansions p t else []

/-- Backtracking matcher: all ways to match `r` against a prefix of `s`,
as `(remaining suffix, captures)` pairs in priority order. -/
def reRun (r : RE) (s : List Char) (cs : Caps) :
    List (List Char × Caps) :=
  match r with
  | .eps => [(s, cs)]
  | .eos => if s.isEmpty then [(s, cs)] else []
  | .lit t => if t.isPrefixOf s then [(s.drop t.length, cs)] else []
  | .cls p =>
    match s with
    | [] => []
    | c :: rest => if p c then [(rest, cs)] else []
  | .seq a b => (reRun a s cs).flatMap (fun x => reRun b x.1 x.2)
  | .alt a b => reRun a s cs ++ reRun b s cs
  | .starCG p => ((expansions p s).reverse ++ [s]).map (fun s2 => (s2, cs))
  | .starCL p => (s :: expansions p s).map (fun s2 => (s2, cs))
  | .plusCG p => (expansions p s).reverse.map (fun s2 => (s2, cs))
  | .plusCL p => (expansions p s).map (fun s2 => (s2, cs))
  | .group i a =>
    (reRun a s cs).map
      (fun x => (x.1, (i, s.take (s.length - x.1.length)) :: x.2))

/-- Leftmost search: try to match at each successive start position and
return the first (highest-priority) match's captures, group `0` being the
whole match. -/
def searchFrom (r : RE) : List Char → Option Caps
  | [] =>
    match (reRun (.group 0 r) [] []).head? with
    | some x => some x.2
    | none => none
  | c :: t =>
    match (reRun (.group 0 r) (c :: t) []).head? with
    | some x => some x.2
    | none => searchFrom r t

/-- `re.search(pattern, s)`: `none` models a failed search, `some caps` a
match object. -/
def reSearch (r : RE) (s : String) : Option Caps := searchFrom r s.data

/-- `match.group(i)` (for groups that participated in the match). -/
def capGroup (cs : Caps) (i : ℕ) : Option String :=
  (cs.find? (fun p => p.1 = i)).map (fun p => ⟨p.2⟩)

/-- Sequence a list of regexes. -/
def Rcat (l : List RE) : RE := l.foldr RE.seq .eps

/-- Prioritised alternation of a list of regexes (left to right, as Python
tries the branches of `(?:a|b|...)`). -/
def Ralts (l : List RE) : RE :=
  match l with
  | [] => .eps
  | [r] => r
  | r :: t => .alt r (Ralts t)

/-- Literal regex from a string. -/
def Rlit (s : String) : RE := .lit s.data

/-- `.` (any character but newline). -/
def anyChar (c : Char) : Bool := c ≠ '\n'

/-- `\s`. -/
def spaceChar (c : Char) : Bool :=
  c = ' ' || c = '\t' || c = '\n' || c = '\r'

/-- `\d`. -/
def Rd : RE := .cls Char.isDigit

/-- `r?` (greedy option). -/
def Ropt (r : RE) : RE := .alt r .eps

/-- `r{n}`. -/
def RrepN (n : ℕ) (r : RE) : RE := Rcat (List.replicate n r)

/-- Capture group. -/
def Rcap (i : ℕ) (r : RE) : RE := .group i r

/-! ### Remaining Python helpers used by the router -/

/-- Python `str.capitalize()`. -/
def pyCapitalize (s : String) : String :=
  match s.data with
  | [] => ""
  | c :: t => ⟨c.toUpper :: t.map Char.toLower⟩

/-- `month_str_to_number` (demo5.py lines 99-106): index of the capitalised
month name in `calendar.month_name` (full English names; the
`pd.to_datetime(..., format='%B')` fallback accepts exactly the same names),
`none` otherwise. -/
def month_str_to_number (s : String) : Option ℕ :=
  List.lookup (pyLower s)
    [("january", 1), ("february", 2), ("march", 3), ("april", 4),
     ("may", 5), ("june", 6), ("july", 7), ("august", 8),
     ("september", 9), ("october", 10), ("november", 11), ("december", 12)]

/-- `strftime('%b')` month abbreviation. -/
def monthAbbrev (m : ℕ) : String :=
  match m with
  | 1 => "Jan" | 2 => "Feb" | 3 => "Mar" | 4 => "Apr" | 5 => "May"
  | 6 => "Jun" | 7 => "Jul" | 8 => "Aug" | 9 => "Sep" | 10 => "Oct"
  | 11 => "Nov" | _ => "Dec"

/-- `re.findall(r"\d{4}", s)` as numbers: non-overlapping four-digit runs,
scanning left to right (fuelled on the input length). -/
def findAll4dAux : ℕ → List Char → List ℕ
  | 0, _ => []
  | _, [] => []
  | fuel + 1, c :: t =>
    if ((c :: t).take 4).all Char.isDigit && decide (4 ≤ (c :: t).length) then
      natVal ((c :: t).take 4) :: findAll4dAux fuel ((c :: t).drop 4)
    else findAll4dAux fuel t

/-- `re.findall(r"\d{4}", s)`. -/
def findAll4d (s : String) : List ℕ := findAll4dAux s.data.length s.data

/-- Word character for `\b` boundaries. -/
def isWordChar (c : Char) : Bool := c.isAlphanum || c = '_'

/-- `re.findall(r"\b(20\d{2})\b", s)`: year-shaped tokens `20xx` delimited
by word boundaries, non-overlapping, left to right.  `prev` is the
character before the current position (`none` at the start). -/
def findYearsAux : ℕ → Option Char → List Char → List String
  | 0, _, _ => []
  | _, _, [] => []
  | fuel + 1, prev, c :: t =>
    let prevOk := match prev with
      | none => true
      | some p => !isWordChar p
    match c :: t with
    | '2' :: '0' :: d1 :: d2 :: rest =>
      if prevOk && d1.isDigit && d2.isDigit &&
          (rest.isEmpty || !isWordChar (rest.headD ' ')) then
        (⟨['2', '0', d1, d2]⟩ : String) :: findYearsAux fuel (some d2) rest
      else findYearsAux fuel (some c) t
    | _ => findYearsAux fuel (some c) t

/-- `re.findall(r"\b(20\d{2})\b", s)`. -/
def findYearsWB (s : String) : List String :=
  findYearsAux s.data.length none s.data

/-- `re.sub(r"(method|type|acquisition)", "", s)`: every occurrence of the
three words removed, scanning left to right with the pattern's alternation
order. -/
def reSubMTAAux : ℕ → List Char → List Char
  | 0, l => l
  | _, [] => []
  | fuel + 1, c :: t =>
    if "method".data.isPrefixOf (c :: t) then
      reSubMTAAux fuel ((c :: t).drop 6)
    else if "type".data.isPrefixOf (c :: t) then
      reSubMTAAux fuel ((c :: t).drop 4)
    else if "acquisition".data.isPrefixOf (c :: t) then
      reSubMTAAux fuel ((c :: t).drop 11)
    else c :: reSubMTAAux fuel t

/-- `re.sub(r"(method|type|acquisition)", "", s)`. -/
def reSubMTA (s : String) : String := ⟨reSubMTAAux s.data.length s.data⟩

/-- Python `int(digit-string)` of a capture group, `0` when absent. -/
def capNat (cs : Caps) (i : ℕ) : ℕ := natVal ((capGroup cs i).getD "").data

/-- A capture group as a string, `""` when absent (only used for groups the
pattern guarantees to have participated). -/
def capStr (cs : Caps) (i : ℕ) : String := (capGroup cs i).getD ""

/-- The `PyVal` of a possibly-missing float (for `format_currency` calls on
data fields). -/
def pyValOf (v : Option ℚ) : PyVal :=
  match v with
  | none => .missing
  | some q => .num q

/-! ### The regex patterns of the router, in source order -/

/-- `[\w\s\-]` -/
def clsWSD (c : Char) : Bool :=
  isWordChar c || c = ' ' || c = '\t' || c = '\n' || c = '\r' || c = '-'

/-- `[\w\s&\-\.]` -/
def clsWSA (c : Char) : Bool := clsWSD c || c = '&' || c = '.'

/-- `[\w\s\/\-]` -/
def clsWSS (c : Char) : Bool := clsWSD c || c = '/'

/-- `[A-Za-z0-9\-]` -/
def clsAlnumDash (c : Char) : Bool := c.isAlpha || c.isDigit || c = '-'

/-- `[a-z0-9\-\.]` under `re.IGNORECASE`. -/
def clsOrdNum (c : Char) : Bool := c.isAlpha || c.isDigit || c = '-' || c = '.'

/-- `[\d,\sand]` -/
def clsYearList (c : Char) : Bool :=
  c.isDigit || c = ',' || c = ' ' || c = '\t' || c = '\n' || c = '\r' ||
    c = 'a' || c = 'n' || c = 'd'

/-- `[\s\-]` -/
def clsSpaceDash (c : Char) : Bool :=
  c = ' ' || c = '\t' || c = '\n' || c = '\r' || c = '-'

/-- `(?:zip code|zip|location)\s*(\d{5})` (line 119). -/
def reZipSearch : RE :=
  Rcat [Ralts [Rlit "zip code", Rlit "zip", Rlit "location"], .starCG spaceChar,
    Rcap 1 (RrepN 5 Rd)]

/-- `the (.+?) acquisition method` (line 140). -/
def reTheAcqMethod : RE :=
  Rcat [Rlit "the ", Rcap 1 (.plusCL anyChar), Rlit " acquisition method"]

/-- `in (\d{4})` (lines 143, 162, 202, 288). -/
def reInYear : RE := Rcat [Rlit "in ", Rcap 1 (RrepN 4 Rd)]

/-- `top (\d+)` (line 158). -/
def reTopN : RE := Rcat [Rlit "top ", Rcap 1 (.plusCG Char.isDigit)]

/-- `supplier code (\d+)` (lines 185, 335). -/
def reSupplierCodeNum : RE :=
  Rcat [Rlit "supplier code ", Rcap 1 (.plusCG Char.isDigit)]

/-- `fiscal year (\d{4})` (lines 219, 413). -/
def reFiscalYearNum : RE :=
  Rcat [Rlit "fiscal year ", Rcap 1 (RrepN 4 Rd)]

/-- `for (.+?)\??$` (line 236). -/
def reForItemEnd : RE :=
  Rcat [Rlit "for ", Rcap 1 (.plusCL anyChar), Ropt (Rlit "?"), .eos]

/-- `method (.+?)\??$` (line 247). -/
def reMethodEnd : RE :=
  Rcat [Rlit "method ", Rcap 1 (.plusCL anyChar), Ropt (Rlit "?"), .eos]

/-- `the (.+?)\??$` (line 261). -/
def reTheItemEnd : RE :=
  Rcat [Rlit "the ", Rcap 1 (.plusCL anyChar), Ropt (Rlit "?"), .eos]

/-- `items of (\w+) (?:bought|purchased) in (\d{4})` (line 275). -/
def reItemsOfCode : RE :=
  Rcat [Rlit "items of ", Rcap 1 (.plusCG isWordChar), Rlit " ",
    Ralts [Rlit "bought", Rlit "purchased"], Rlit " in ",
    Rcap 2 (RrepN 4 Rd)]

/-- `department (.+?) in fiscal year (\d{4})` (line 308). -/
def reDeptFY : RE :=
  Rcat [Rlit "department ", Rcap 1 (.plusCL anyChar), Rlit " in fiscal year ",
    Rcap 2 (RrepN 4 Rd)]

/-- `location (\d+)` (line 320). -/
def reLocationNum : RE := Rcat [Rlit "location ", Rcap 1 (.plusCG Char.isDigit)]

/-- `item (.+?) in` (line 367). -/
def reItemIn : RE := Rcat [Rlit "item ", Rcap 1 (.plusCL anyChar), Rlit " in"]

/-- `purchase order (.+?)$` (line 368). -/
def rePOEnd : RE :=
  Rcat [Rlit "purchase order ", Rcap 1 (.plusCL anyChar), .eos]

/-- `total spend by (.+?) in (?:the )?fiscal year (\d{4})` (line 396). -/
def reTotalSpendByFY : RE :=
  Rcat [Rlit "total spend by ", Rcap 1 (.plusCL anyChar), Rlit " in ",
    Ropt (Rlit "the "), Rlit "fiscal year ", Rcap 2 (RrepN 4 Rd)]

/-- `how many items? (?:were|was) purchased from (.+?) using lpa number
([A-Za-z0-9\-]+)` (line 419). -/
def reLpa : RE :=
  Rcat [Rlit "how many item", Ropt (Rlit "s"), Rlit " ",
    Ralts [Rlit "were", Rlit "was"], Rlit " purchased from ",
    Rcap 1 (.plusCL anyChar), Rlit " using lpa number ",
    Rcap 2 (.plusCG clsAlnumDash)]

/-- `(\d{4})` (line 432). -/
def reYear4 : RE := Rcap 1 (RrepN 4 Rd)

/-- `purchase order number (?:for|of) (?:the )?requisition (\w+)`
(line 445). -/
def rePOforReq : RE :=
  Rcat [Rlit "purchase order number ", Ralts [Rlit "for", Rlit "of"],
    Rlit " ", Ropt (Rlit "the "), Rlit "requisition ", Rcap 1 (.plusCG isWordChar)]

/-- `total orders from (.+?) (?:in|during) (.+)` (line 454). -/
def reTotalOrdersFromIn : RE :=
  Rcat [Rlit "total orders from ", Rcap 1 (.plusCL anyChar), Rlit " ",
    Ralts [Rlit "in", Rlit "during"], Rlit " ", Rcap 2 (.plusCG anyChar)]

/-- `(?:total|how many) quantity of (.+?) (?:purchased|bought|ordered)
(?:in|during) (\d{4})` (line 474). -/
def reQuantityOf : RE :=
  Rcat [Ralts [Rlit "total", Rlit "how many"], Rlit " quantity of ",
    Rcap 1 (.plusCL anyChar), Rlit " ",
    Ralts [Rlit "purchased", Rlit "bought", Rlit "ordered"], Rlit " ",
    Ralts [Rlit "in", Rlit "during"], Rlit " ", Rcap 2 (RrepN 4 Rd)]

/-- `(?:total|how many) (.+?) (?:were|was) (?:purchased|bought|ordered)
(?:in|during) (\d{4})` (line 476). -/
def reQuantityOf2 : RE :=
  Rcat [Ralts [Rlit "total", Rlit "how many"], Rlit " ",
    Rcap 1 (.plusCL anyChar), Rlit " ", Ralts [Rlit "were", Rlit "was"],
    Rlit " ", Ralts [Rlit "purchased", Rlit "bought", Rlit "ordered"],
    Rlit " ", Ralts [Rlit "in", Rlit "during"], Rlit " ",
    Rcap 2 (RrepN 4 Rd)]

/-- `how many items? (?:were|was) ordered? in (\d{4})` (line 495). -/
def reItemsOrderedIn : RE :=
  Rcat [Rlit "how many item", Ropt (Rlit "s"), Rlit " ",
    Ralts [Rlit "were", Rlit "was"], Rlit " ordere", Ropt (Rlit "d"),
    Rlit " in ", Rcap 1 (RrepN 4 Rd)]

/-- `\d{4}` (line 496). -/
def reBare4 : RE := Rcap 1 (RrepN 4 Rd)

/-- `how many (.+?) (?:were|was) (?:purchased|bought|ordered) (?:in|during)
(\d{4})` (line 501). -/
def reHowManyXPurch : RE :=
  Rcat [Rlit "how many ", Rcap 1 (.plusCL anyChar), Rlit " ",
    Ralts [Rlit "were", Rlit "was"], Rlit " ",
    Ralts [Rlit "purchased", Rlit "bought", Rlit "ordered"], Rlit " ",
    Ralts [Rlit "in", Rlit "during"], Rlit " ", Rcap 2 (RrepN 4 Rd)]

/-- `(?:total|how many) orders? (?:from|of|for) (.+?) (?:in|during)
(\d{4})` (line 517). -/
def reOrdersFromIn : RE :=
  Rcat [Ralts [Rlit "total", Rlit "how many"], Rlit " order",
    Ropt (Rlit "s"), Rlit " ", Ralts [Rlit "from", Rlit "of", Rlit "for"],
    Rlit " ", Rcap 1 (.plusCL anyChar), Rlit " ",
    Ralts [Rlit "in", Rlit "during"], Rlit " ", Rcap 2 (RrepN 4 Rd)]

/-- `total (?:price|spend|spending|amount) (?:of|for) ([\w\s\-]+)
(?:purchased|bought)? (?:in|for|during) (\d{4})` (line 529). -/
def reTotalPriceOfPurch : RE :=
  Rcat [Rlit "total ",
    Ralts [Rlit "price", Rlit "spend", Rlit "spending", Rlit "amount"],
    Rlit " ", Ralts [Rlit "of", Rlit "for"], Rlit " ",
    Rcap 1 (.plusCG clsWSD), Rlit " ",
    Ropt (Ralts [Rlit "purchased", Rlit "bought"]), Rlit " ",
    Ralts [Rlit "in", Rlit "for", Rlit "during"], Rlit " ",
    Rcap 2 (RrepN 4 Rd)]

/-- `(?:total|how much) (?:calcard|cal card) (?:spend|spending|amount)
(?:in|for|during) (\d{4})` (line 549). -/
def reCalcard1 : RE :=
  Rcat [Ralts [Rlit "total", Rlit "how much"], Rlit " ",
    Ralts [Rlit "calcard", Rlit "cal card"], Rlit " ",
    Ralts [Rlit "spend", Rlit "spending", Rlit "amount"], Rlit " ",
    Ralts [Rlit "in", Rlit "for", Rlit "during"], Rlit " ",
    Rcap 1 (RrepN 4 Rd)]

/-- `(?:what was|what's) (?:the)? (?:calcard|cal card)
(?:spend|spending|amount) (?:in|for|during) (\d{4})` (line 551). -/
def reCalcard2 : RE :=
  Rcat [Ralts [Rlit "what was", Rlit "what\x27s"], Rlit " ",
    Ropt (Rlit "the"), Rlit " ", Ralts [Rlit "calcard", Rlit "cal card"],
    Rlit " ", Ralts [Rlit "spend", Rlit "spending", Rlit "amount"],
    Rlit " ", Ralts [Rlit "in", Rlit "for", Rlit "during"], Rlit " ",
    Rcap 1 (RrepN 4 Rd)]

/-- `(?:requisition|req|purchase order|po)[\s\-]?(?:number|no|#)?[\s\-]*([a-z0-9\-\.]+)`
with `re.IGNORECASE` (line 558). -/
def reOrderNum : RE :=
  Rcat [Ralts [Rlit "requisition", Rlit "req", Rlit "purchase order",
      Rlit "po"],
    Ropt (.cls clsSpaceDash), Ropt (Ralts [Rlit "number", Rlit "no", Rlit "#"]),
    .starCG clsSpaceDash, Rcap 1 (.plusCG clsOrdNum)]

/-- `orders? between (\w+)\s+(\d{4}) and (\w+)\s+(\d{4})` (line 598). -/
def reBetween : RE :=
  Rcat [Rlit "order", Ropt (Rlit "s"), Rlit " between ",
    Rcap 1 (.plusCG isWordChar), .plusCG spaceChar, Rcap 2 (RrepN 4 Rd), Rlit " and ",
    Rcap 3 (.plusCG isWordChar), .plusCG spaceChar, Rcap 4 (RrepN 4 Rd)]

/-- `(?:list|show|all) suppliers? (?:from|in|with) zip(?: code)?\s*(\d{5})`
(line 609). -/
def reSupZip : RE :=
  Rcat [Ralts [Rlit "list", Rlit "show", Rlit "all"], Rlit " supplier",
    Ropt (Rlit "s"), Rlit " ", Ralts [Rlit "from", Rlit "in", Rlit "with"],
    Rlit " zip", Ropt (Rlit " code"), .starCG spaceChar, Rcap 1 (RrepN 5 Rd)]

/-- `suppliers? with ([\w\-]+) qualification` (line 620). -/
def reQualSup : RE :=
  Rcat [Rlit "supplier", Ropt (Rlit "s"), Rlit " with ",
    Rcap 1 (.plusCG (fun c => isWordChar c || c = '-')),
    Rlit " qualification"]

/-- `total (?:price|spend|spending|amount) (?:of|for) ([\w\s\-]+)
(?:in|for|during) (\d{4})` (line 640). -/
def reTotalPriceOfIn : RE :=
  Rcat [Rlit "total ",
    Ralts [Rlit "price", Rlit "spend", Rlit "spending", Rlit "amount"],
    Rlit " ", Ralts [Rlit "of", Rlit "for"], Rlit " ",
    Rcap 1 (.plusCG clsWSD), Rlit " ",
    Ralts [Rlit "in", Rlit "for", Rlit "during"], Rlit " ",
    Rcap 2 (RrepN 4 Rd)]

/-- `how much (?:was|did) (?:we|they) spend on ([\w\s\-]+) (?:in|for|during)
(\d{4})` (line 642). -/
def reHowMuchSpendOn : RE :=
  Rcat [Rlit "how much ", Ralts [Rlit "was", Rlit "did"], Rlit " ",
    Ralts [Rlit "we", Rlit "they"], Rlit " spend on ",
    Rcap 1 (.plusCG clsWSD), Rlit " ",
    Ralts [Rlit "in", Rlit "for", Rlit "during"], Rlit " ",
    Rcap 2 (RrepN 4 Rd)]

/-- `(?:list|show|name|all|give me) (?:the|of|all)? ?suppliers?`
(line 656). -/
def reListSuppliers : RE :=
  Rcat [Ralts [Rlit "list", Rlit "show", Rlit "name", Rlit "all",
      Rlit "give me"], Rlit " ",
    Ropt (Ralts [Rlit "the", Rlit "of", Rlit "all"]), Ropt (Rlit " "),
    Rlit "supplier", Ropt (Rlit "s")]

/-- `total orders? (?:of|from|by|for) ([\w\s\-]+)` (line 665). -/
def reTotalOrdersOf : RE :=
  Rcat [Rlit "total order", Ropt (Rlit "s"), Rlit " ",
    Ralts [Rlit "of", Rlit "from", Rlit "by", Rlit "for"], Rlit " ",
    Rcap 1 (.plusCG clsWSD)]

/-- `total orders? (?:of|from|by|for) ([\w\s\-]+) (?:in|for|during)
(\d{4})` (line 672). -/
def reTotalOrdersOfYear : RE :=
  Rcat [Rlit "total order", Ropt (Rlit "s"), Rlit " ",
    Ralts [Rlit "of", Rlit "from", Rlit "by", Rlit "for"], Rlit " ",
    Rcap 1 (.plusCG clsWSD), Rlit " ",
    Ralts [Rlit "in", Rlit "for", Rlit "during"], Rlit " ",
    Rcap 2 (RrepN 4 Rd)]

/-- `(?:on|made on|placed on|received on)? ?(\w+)\s+(\d{1,2}),?\s+(\d{4})`
(line 683). -/
def reDateSpec : RE :=
  Rcat [Ropt (Ralts [Rlit "on", Rlit "made on", Rlit "placed on",
      Rlit "received on"]), Ropt (Rlit " "),
    Rcap 1 (.plusCG isWordChar), .plusCG spaceChar, Rcap 2 (Rcat [Rd, Ropt Rd]),
    Ropt (Rlit ","), .plusCG spaceChar, Rcap 3 (RrepN 4 Rd)]

/-- `(?:in|for|from) (\w+) (\d{4})` (line 692). -/
def reMonthYear : RE :=
  Rcat [Ralts [Rlit "in", Rlit "for", Rlit "from"], Rlit " ",
    Rcap 1 (.plusCG isWordChar), Rlit " ", Rcap 2 (RrepN 4 Rd)]

/-- `(?:how many|number of)? ?orders (?:were )?(?:placed|made|received)?
?(?:in|during|for)? ?(\d{4})` (line 711). -/
def reSingleYear : RE :=
  Rcat [Ropt (Ralts [Rlit "how many", Rlit "number of"]), Ropt (Rlit " "),
    Rlit "orders ", Ropt (Rlit "were "),
    Ropt (Ralts [Rlit "placed", Rlit "made", Rlit "received"]),
    Ropt (Rlit " "), Ropt (Ralts [Rlit "in", Rlit "during", Rlit "for"]),
    Ropt (Rlit " "), Rcap 1 (RrepN 4 Rd)]

/-- `quarter.*highest.*(?:in|for)? ?(\d{4})` (line 718). -/
def reQuarterHighestYear : RE :=
  Rcat [Rlit "quarter", .starCG anyChar, Rlit "highest", .starCG anyChar,
    Ropt (Ralts [Rlit "in", Rlit "for"]), Ropt (Rlit " "),
    Rcap 1 (RrepN 4 Rd)]

/-- `orders? from suppliers? in zip (\d{5})` (line 731). -/
def reSupInZip : RE :=
  Rcat [Rlit "order", Ropt (Rlit "s"), Rlit " from supplier",
    Ropt (Rlit "s"), Rlit " in zip ", Rcap 1 (RrepN 5 Rd)]

/-- `orders? delivered to (\d{5})` (line 742). -/
def reDeliveredTo : RE :=
  Rcat [Rlit "order", Ropt (Rlit "s"), Rlit " delivered to ",
    Rcap 1 (RrepN 5 Rd)]

/-- `classification code (\d+)` (line 753). -/
def reClassCode : RE :=
  Rcat [Rlit "classification code ", Rcap 1 (.plusCG Char.isDigit)]

/-- `(orders|purchases) (under|in|from|for) (.+?) (category|item|group)?\??$`
(line 764). -/
def reCategory : RE :=
  Rcat [Rcap 1 (Ralts [Rlit "orders", Rlit "purchases"]), Rlit " ",
    Rcap 2 (Ralts [Rlit "under", Rlit "in", Rlit "from", Rlit "for"]),
    Rlit " ", Rcap 3 (.plusCL anyChar), Rlit " ",
    Ropt (Rcap 4 (Ralts [Rlit "category", Rlit "item", Rlit "group"])),
    Ropt (Rlit "?"), .eos]

/-- `how many orders did ([\w\s&\-\.]+) (make|place|have|do)\??`
(line 784). -/
def reOrdersDid : RE :=
  Rcat [Rlit "how many orders did ", Rcap 1 (.plusCG clsWSA),
    Rlit " ", Rcap 2 (Ralts [Rlit "make", Rlit "place", Rlit "have",
      Rlit "do"]), Ropt (Rlit "?")]

/-- `total (spend|spending|expenditure|amount) by ([\w\s&\-\.]+)`
(line 791). -/
def reSpendBy : RE :=
  Rcat [Rlit "total ", Rcap 1 (Ralts [Rlit "spend", Rlit "spending",
      Rlit "expenditure", Rlit "amount"]), Rlit " by ",
    Rcap 2 (.plusCG clsWSA)]

/-- `orders (?:using|used|with) ([\w\s\/\-]+)` (line 803). -/
def reOrdersUsing : RE :=
  Rcat [Rlit "orders ", Ralts [Rlit "using", Rlit "used", Rlit "with"],
    Rlit " ", Rcap 1 (.plusCG clsWSS)]

/-- `(?:total|overall) spending in (\d{4})` (line 816). -/
def reSpendingIn : RE :=
  Rcat [Ralts [Rlit "total", Rlit "overall"], Rlit " spending in ",
    Rcap 1 (RrepN 4 Rd)]

/-- `average monthly spending(?: in| of)? ([\d,\sand]+)` (line 823). -/
def reAvgMonthly : RE :=
  Rcat [Rlit "average monthly spending",
    Ropt (Ralts [Rlit " in", Rlit " of"]),
    Rcap 1 (.plusCG clsYearList)]

/-- `total spending on ([\w\s&\-\.]+)` (line 843). -/
def reSpendingOn : RE :=
  Rcat [Rlit "total spending on ", Rcap 1 (.plusCG clsWSA)]

/-- `(most|highest|largest|greatest|max(imum)?|biggest|top)` (lines
872-875). -/
def reSuperl : RE :=
  Ralts [Rlit "most", Rlit "highest", Rlit "largest", Rlit "greatest",
    Rcat [Rlit "max", Ropt (Rlit "imum")], Rlit "biggest", Rlit "top"]

/-- `name of (the )?supplier with (the )?<superlative> number of orders`
(line 872). -/
def reNameOfSupplier : RE :=
  Rcat [Rlit "name of ", Ropt (Rlit "the "), Rlit "supplier with ",
    Ropt (Rlit "the "), reSuperl, Rlit " number of orders"]

/-- `which supplier had (the )?<superlative> number of orders` (line 873). -/
def reWhichSupplier : RE :=
  Rcat [Rlit "which supplier had ", Ropt (Rlit "the "), reSuperl,
    Rlit " number of orders"]

/-- `who (is|was) (the )?supplier with (the )?<superlative> number of
orders` (line 874). -/
def reWhoIsSupplier : RE :=
  Rcat [Rlit "who ", Ralts [Rlit "is", Rlit "was"], Rlit " ",
    Ropt (Rlit "the "), Rlit "supplier with ", Ropt (Rlit "the "),
    reSuperl, Rlit " number of orders"]

/-- `supplier with (the )?<superlative> number of orders` (line 875). -/
def reSupplierWith : RE :=
  Rcat [Rlit "supplier with ", Ropt (Rlit "the "), reSuperl,
    Rlit " number of orders"]

/-- `(what|which) (items|item) (were|was)? ?(bought|purchased|ordered)?
?(the )?most` (line 911). -/
def reWhatItemsMost : RE :=
  Rcat [Ralts [Rlit "what", Rlit "which"], Rlit " ",
    Ralts [Rlit "items", Rlit "item"], Rlit " ",
    Ropt (Ralts [Rlit "were", Rlit "was"]), Ropt (Rlit " "),
    Ropt (Ralts [Rlit "bought", Rlit "purchased", Rlit "ordered"]),
    Ropt (Rlit " "), Ropt (Rlit "the "), Rlit "most"]

/-- `how much (did we|was)? ?(spend|spent) on ([\w\s&\-\.]+)` (line 920). -/
def reHowMuchSpentOn : RE :=
  Rcat [Rlit "how much ", Ropt (Ralts [Rlit "did we", Rlit "was"]),
    Ropt (Rlit " "), Rcap 2 (Ralts [Rlit "spend", Rlit "spent"]),
    Rlit " on ", Rcap 3 (.plusCG clsWSA)]

/-- `orders in (the )?([\w\s&\-\.]+) segment` (line 937). -/
def reSegmentQ : RE :=
  Rcat [Rlit "orders in ", Ropt (Rlit "the "),
    Rcap 2 (.plusCG clsWSA), Rlit " segment"]

/-- `who (was|is) (the )?(most expensive|highest spending|most
spending|greatest spending|largest spending) supplier` (line 948). -/
def reExpensiveSupplier : RE :=
  Rcat [Rlit "who ", Ralts [Rlit "was", Rlit "is"], Rlit " ",
    Ropt (Rlit "the "),
    Ralts [Rlit "most expensive", Rlit "highest spending",
      Rlit "most spending", Rlit "greatest spending",
      Rlit "largest spending"], Rlit " supplier"]

/-- `orders? (?:from|by|with|placed with|made by) ([\w\s&\-\.]+) in
(\d{4})` (line 958). -/
def reOrdersFromYear : RE :=
  Rcat [Rlit "order", Ropt (Rlit "s"), Rlit " ",
    Ralts [Rlit "from", Rlit "by", Rlit "with", Rlit "placed with",
      Rlit "made by"], Rlit " ", Rcap 1 (.plusCG clsWSA),
    Rlit " in ", Rcap 2 (RrepN 4 Rd)]

/-- `how many orders (from|by|with|placed with|made by) ([\w\s&\-\.]+)\??`
(line 965). -/
def reHowManyOrdersFrom : RE :=
  Rcat [Rlit "how many orders ",
    Rcap 1 (Ralts [Rlit "from", Rlit "by", Rlit "with", Rlit "placed with",
      Rlit "made by"]), Rlit " ", Rcap 2 (.plusCG clsWSA),
    Ropt (Rlit "?")]

/-- `(top|show|list|give me|tell me|what are|which are)? ?(\d+)?
?(most|top)? ?(bought|purchased|ordered)? ?items` (line 971). -/
def reTopItems : RE :=
  Rcat [Ropt (Rcap 1 (Ralts [Rlit "top", Rlit "show", Rlit "list",
      Rlit "give me", Rlit "tell me", Rlit "what are", Rlit "which are"])),
    Ropt (Rlit " "), Ropt (Rcap 2 (.plusCG Char.isDigit)), Ropt (Rlit " "),
    Ropt (Rcap 3 (Ralts [Rlit "most", Rlit "top"])), Ropt (Rlit " "),
    Ropt (Rcap 4 (Ralts [Rlit "bought", Rlit "purchased", Rlit "ordered"])),
    Ropt (Rlit " "), Rlit "items"]

/-! ### The question handlers, in source order -/

/-- A handler outcome: `none` means the branch fell through without
returning; `some (.ok s)` a returned answer; `some (.error e)` an exception
raised inside the handler. -/
abbrev Ans := Option (Except String String)

/-- Join display lines as `"\n".join` does. -/
def joinLines (l : List String) : String := String.intercalate "\n" l

/-- Lines 118-136: purchases delivered to a ZIP code. -/
def branchZipDelivered (q : String) (df : DataFrame) : Ans :=
  match reSearch reZipSearch q with
  | none => none
  | some cs =>
    let zip := capStr cs 1
    let purchases := df.rows.filter
      (fun r => strContains r.location zip || strContains r.supplierZip zip)
    if !purchases.isEmpty then
      some (.ok ("📍 Purchases for location " ++ zip ++ ":\n" ++
        joinLines ((purchases.take 20).map (fun r =>
          "- " ++ r.itemName ++ " (" ++ moneyStrOpt r.totalPrice ++ ", " ++
            dateISO r.purchaseDate ++ ")"))))
    else some (.ok ("⚠️ No purchases found for ZIP code " ++ zip))

/-- Lines 139-153: purchases by acquisition method. -/
def branchAcqMethodUsed (q : String) (df : DataFrame) : Ans :=
  match reSearch reTheAcqMethod q with
  | none => none
  | some cs =>
    let method := pyStrip (capStr cs 1)
    match reSearch reInYear q with
    | some ys =>
      let year := capNat ys 1
      let count := (df.rows.filter (fun r =>
        strContainsCI r.acquisitionMethod method && r.year = year)).length
      some (.ok ("📦 Number of " ++ method ++ " purchases in " ++
        natStr year ++ ": " ++ natStr count))
    | none =>
      let count := (df.rows.filter (fun r =>
        strContainsCI r.acquisitionMethod method)).length
      some (.ok ("📦 Total " ++ method ++ " purchases: " ++ natStr count))

/-- The group-by-supplier spend aggregation shared by the top-N handlers:
sum `Total Price` per supplier (groupby, keys sorted ascending) and keep the
`n` largest sums, earlier series position winning ties. -/
def topSuppliersBySpend (rows : List Row) (n : ℕ) : List (String × ℚ) :=
  nlargest n (groupSumBy Row.supplierName Row.totalPrice rows)

/-- Lines 156-181: top N suppliers by total spend. -/
def branchTopSuppliers (q : String) (df : DataFrame) : Ans :=
  let n := match reSearch reTopN q with
    | some cs => capNat cs 1
    | none => 3
  let yearMatch := reSearch reInYear q
  let suppliers := match yearMatch with
    | some ys =>
      topSuppliersBySpend (df.rows.filter (fun r => r.year = capNat ys 1)) n
    | none => topSuppliersBySpend df.rows n
  let timePeriod := match yearMatch with
    | some ys => "in " ++ natStr (capNat ys 1)
    | none => "overall"
  if !suppliers.isEmpty then
    some (.ok ("🏆 Top " ++ natStr n ++ " suppliers " ++ timePeriod ++
      ":\n" ++ joinLines (suppliers.enum.map (fun p =>
        natStr (p.1 + 1) ++ ". " ++ p.2.1 ++ ": " ++ moneyStr p.2.2))))
  else some (.ok ("⚠️ No supplier data found " ++ timePeriod))

/-- Lines 184-198: total spend for a supplier code. -/
def branchSupplierCodeSpend (q : String) (df : DataFrame) : Ans :=
  match reSearch reSupplierCodeNum q with
  | none => none
  | some cs =>
    let code := pyStrip (capStr cs 1)
    match df.rows.filter (fun r => pyStrip r.supplierCode = code) with
    | [] => some (.ok ("⚠️ No purchases found for supplier code " ++ code))
    | r :: t =>
      let total := sumCol Row.totalPrice (r :: t)
      some (.ok ("🏢 Total spend for supplier code " ++ code ++ " (" ++
        r.supplierName ++ "): " ++ moneyStr total ++
        "\n- Number of purchases: " ++ natStr (r :: t).length))

/-- Lines 201-215: acquisition type with the highest spend. -/
def branchAcqTypeHighest (q : String) (df : DataFrame) : Ans :=
  let yearMatch := reSearch reInYear q
  let dfYear := match yearMatch with
    | some ys => df.rows.filter (fun r => r.year = capNat ys 1)
    | none => df.rows
  if !dfYear.isEmpty then
    match nlargest 1 (groupSumBy Row.acquisitionType Row.totalPrice dfYear) with
    | [] => some (.error "IndexError: index 0 is out of bounds")
    | p :: _ =>
      let tag := match yearMatch with
        | some ys => "in " ++ natStr (capNat ys 1)
        | none => ""
      some (.ok ("📊 Highest spending acquisition type " ++ tag ++
        ":\n- " ++ p.1 ++ ": " ++ moneyStr p.2))
  else some (.ok "⚠️ No data found for specified year")

/-- Lines 218-232: most frequently purchased items in a fiscal year. -/
def branchFreqItemsFY (q : String) (df : DataFrame) : Ans :=
  match reSearch reFiscalYearNum q with
  | none => none
  | some cs =>
    let ys := capStr cs 1
    let topItems := (valueCounts ((df.rows.filter (fun r =>
      strContains r.fiscalYear ys)).map Row.itemName)).take 10
    if !topItems.isEmpty then
      some (.ok ("🛒 Most frequently purchased items in FY" ++ ys ++
        ":\n" ++ joinLines (topItems.map (fun p =>
          "- " ++ p.1 ++ " (" ++ natStr p.2 ++ ")"))))
    else some (.ok ("⚠️ No purchase data found for FY" ++ ys))

/-- Lines 235-243: normalized UNSPSC of an item (an unmatched inner search
raises `AttributeError` on `.group`). -/
def branchUNSPSC (q : String) (df : DataFrame) : Ans :=
  match reSearch reForItemEnd q with
  | none =>
    some (.error "AttributeError: NoneType object has no attribute group")
  | some cs =>
    let item := pyUpper (pyStrip (capStr cs 1))
    match df.rows.filter (fun r => strContains (pyUpper r.itemName) item) with
    | [] => some (.ok ("⚠️ No UNSPSC code found for " ++ item))
    | r :: _ =>
      some (.ok ("🏷️ Normalized UNSPSC for " ++ item ++ ": " ++
        r.normalizedUNSPSC))

/-- Lines 246-257: transactions with a sub-acquisition method. -/
def branchSubAcq (q : String) (df : DataFrame) : Ans :=
  match reSearch reMethodEnd q with
  | none =>
    some (.error "AttributeError: NoneType object has no attribute group")
  | some cs =>
    let method := pyStrip (capStr cs 1)
    let transactions := df.rows.filter (fun r =>
      strContainsCI r.subAcquisitionMethod method)
    if !transactions.isEmpty then
      some (.ok ("📝 Transactions with sub-acquisition method \x27" ++
        method ++ "\x27:\n" ++ joinLines ((transactions.take 10).map
          (fun r => "- " ++ r.itemName ++ " (" ++
            moneyStrOpt r.totalPrice ++ ")"))))
    else some (.ok ("⚠️ No transactions found with sub-acquisition method \x27"
      ++ method ++ "\x27"))

/-- Lines 260-271: segment and family classification of an item. -/
def branchClassification (q : String) (df : DataFrame) : Ans :=
  match reSearch reTheItemEnd q with
  | none =>
    some (.error "AttributeError: NoneType object has no attribute group")
  | some cs =>
    let item := pyUpper (pyStrip (capStr cs 1))
    match df.rows.filter (fun r => strContains (pyUpper r.itemName) item) with
    | [] => some (.ok ("⚠️ No classification found for item " ++ item))
    | r :: _ =>
      some (.ok ("🏷️ Classification for " ++ item ++ ":\n- Segment: " ++
        r.segmentTitle ++ "\n- Family: " ++ r.familyTitle))

/-- Lines 274-284: quantity of items with a classification code. -/
def branchItemsOfCode (q : String) (df : DataFrame) : Ans :=
  match reSearch reItemsOfCode q with
  | none => none
  | some cs =>
    let code := capStr cs 1
    let year := capNat cs 2
    let total := (df.rows.filter (fun r =>
      (strContains r.classificationCodes code ||
        strContains r.normalizedUNSPSC code) && r.year = year)).foldr
      (fun r acc => (r.quantity.getD 0) + acc) 0
    some (.ok ("📦 Total quantity of items with code " ++ code ++ " in " ++
      natStr year ++ ": " ++ intStr (pyInt total)))

/-- Lines 287-304: top three suppliers by total spend. -/
def branchTopThree (q : String) (df : DataFrame) : Ans :=
  match reSearch reInYear q with
  | some ys =>
    let year := capNat ys 1
    let top := topSuppliersBySpend (df.rows.filter (fun r => r.year = year)) 3
    some (.ok ("🏆 Top 3 suppliers in " ++ natStr year ++ ":\n" ++
      joinLines (top.map (fun p => "- " ++ p.1 ++ ": " ++ moneyStr p.2))))
  | none =>
    let top := topSuppliersBySpend df.rows 3
    some (.ok ("🏆 Top 3 suppliers overall:\n" ++
      joinLines (top.map (fun p => "- " ++ p.1 ++ ": " ++ moneyStr p.2))))

/-- Lines 307-316: department spend in a fiscal year. -/
def branchDeptSpend (q : String) (df : DataFrame) : Ans :=
  match reSearch reDeptFY q with
  | none => none
  | some cs =>
    let dept := pyStrip (capStr cs 1)
    let year := capNat cs 2
    let total := sumCol Row.totalPrice (df.rows.filter (fun r =>
      strContainsCI r.departmentName dept &&
        strContains r.fiscalYear (natStr year)))
    some (.ok ("🏛️ Total spend for " ++ pyTitle dept ++ " in FY" ++
      natStr year ++ ": " ++ moneyStr total))

/-- Lines 319-331: purchases linked to a location. -/
def branchLocation (q : String) (df : DataFrame) : Ans :=
  match reSearch reLocationNum q with
  | none => none
  | some cs =>
    let zip := capStr cs 1
    let purchases := df.rows.filter (fun r => strContains r.location zip)
    if !purchases.isEmpty then
      some (.ok ("📍 Purchases for location " ++ zip ++ ":\n" ++
        joinLines ((purchases.take 10).map (fun r =>
          "- " ++ r.itemName ++ " (" ++ moneyStrOpt r.totalPrice ++ ")"))))
    else some (.ok ("⚠️ No purchases found for location " ++ zip))

/-- Lines 334-339: total price under a supplier code. -/
def branchSupplierCodeTotal (q : String) (df : DataFrame) : Ans :=
  match reSearch reSupplierCodeNum q with
  | none => none
  | some cs =>
    let code := capStr cs 1
    let total := sumCol Row.totalPrice
      (df.rows.filter (fun r => r.supplierCode = code))
    some (.ok ("🏢 Total spend for supplier code " ++ code ++ ": " ++
      moneyStr total))

/-- Lines 342-351: items purchased under an acquisition type. -/
def branchItemsByAcqType (q : String) (df : DataFrame) : Ans :=
  match (pySplit q "acquisition type")[1]? with
  | none => some (.error "IndexError: list index out of range")
  | some seg =>
    let acqType := pyStrip seg
    let items := distinctFE ((df.rows.filter (fun r =>
      strContainsCI r.acquisitionType acqType)).map
        (fun r => (r.itemName, r.itemDescription)))
    if !items.isEmpty then
      some (.ok ("📋 Items purchased under " ++ acqType ++ ":\n" ++
        joinLines ((items.map (fun p =>
          "- " ++ p.1 ++ " (" ++ p.2 ++ ")")).take 100)))
    else some (.ok ("⚠️ No items found under acquisition type " ++ acqType))

/-- Lines 354-363: purchases from suppliers with a qualification. -/
def branchSupplierQual (q : String) (df : DataFrame) : Ans :=
  match (pySplit q "qualification")[1]? with
  | none => some (.error "IndexError: list index out of range")
  | some seg =>
    let quals := pyUpper (pyStrip seg)
    let suppliers := df.rows.filter (fun r =>
      strContains r.supplierQualifications quals)
    if !suppliers.isEmpty then
      some (.ok ("🏢 Purchases from suppliers with " ++ quals ++
        " qualification:\n" ++ joinLines ((suppliers.map (fun r =>
          "- " ++ pyTitle r.supplierName ++ " (" ++ r.itemName ++
            ")")).take 100)))
    else some (.ok ("⚠️ No purchases found from suppliers with " ++ quals ++
      " qualification"))

/-- Lines 366-377: quantity and unit price for an item on a purchase
order. -/
def branchQtyUnitPO (q : String) (df : DataFrame) : Ans :=
  match reSearch reItemIn q with
  | none =>
    some (.error "AttributeError: NoneType object has no attribute group")
  | some ics =>
    let item := pyUpper (capStr ics 1)
    match reSearch rePOEnd q with
    | none =>
      some (.error "AttributeError: NoneType object has no attribute group")
    | some pcs =>
      let po := pyStrip (capStr pcs 1)
      match df.rows.filter (fun r =>
          strContains r.purchaseOrderNumber po &&
            strContainsCI r.itemName item) with
      | [] => some (.ok ("⚠️ No matching purchase found for item " ++ item ++
          " in PO " ++ po))
      | r :: _ =>
        some (.ok ("📊 For item " ++ item ++ " in PO " ++ po ++
          ":\n- Quantity: " ++ floatStr r.quantity ++ "\n- Unit Price: " ++
          format_currency (pyValOf r.unitPrice)))

/-- Lines 380-383: count of purchases by acquisition method. -/
def branchCountByAcqMethod (q : String) (df : DataFrame) : Ans :=
  match (pySplit q "acquisition method")[1]? with
  | none => some (.error "IndexError: list index out of range")
  | some seg =>
    let method := pyStrip seg
    let count := (df.rows.filter (fun r =>
      strContainsCI r.acquisitionMethod method)).length
    some (.ok ("📦 Number of purchases using " ++ method ++ ": **" ++
      natStr count ++ "**"))

/-- Lines 386-393: segment and family classification (split-based). -/
def branchClassificationSplit (q : String) (df : DataFrame) : Ans :=
  match (pySplit q "the")[1]? with
  | none => some (.error "IndexError: list index out of range")
  | some seg =>
    let item := pyUpper (pyStrip seg)
    match df.rows.filter (fun r => strContainsCI r.itemName item) with
    | [] => some (.ok ("⚠️ No classification found for item " ++ item))
    | r :: _ =>
      some (.ok ("🏷️ Classification for " ++ item ++ ":\n- Segment: " ++
        r.segmentTitle ++ "\n- Family: " ++ r.familyTitle))

/-- Lines 396-409: total spend by a supplier in a fiscal year. -/
def branchSpendByFY (q : String) (df : DataFrame) : Ans :=
  match reSearch reTotalSpendByFY q with
  | none => none
  | some cs =>
    let supplier := pyStrip (capStr cs 1)
    let year := capNat cs 2
    let matched := df.rows.filter (fun r =>
      strContains (pyLower r.supplierName) (pyLower supplier) &&
        strContains r.fiscalYear (natStr year))
    if !matched.isEmpty then
      some (.ok ("💸 Total spend by " ++ pyTitle supplier ++ " in FY" ++
        natStr year ++ ": **" ++ moneyStr (sumCol Row.totalPrice matched) ++
        "**"))
    else some (.ok ("⚠️ No spending found for " ++ pyTitle supplier ++
      " in FY" ++ natStr year))

/-- Lines 412-416: CalCard spending in a fiscal year (a missing year match
raises `AttributeError`). -/
def branchCalcardFY (q : String) (df : DataFrame) : Ans :=
  match reSearch reFiscalYearNum q with
  | none =>
    some (.error "AttributeError: NoneType object has no attribute group")
  | some cs =>
    let year := capNat cs 1
    let total := sumCol Row.totalPrice (df.rows.filter (fun r =>
      pyUpper r.calCard = "YES" && strContains r.fiscalYear (natStr year)))
    some (.ok ("💳 Total CalCard spending in FY" ++ natStr year ++ ": **" ++
      moneyStr total ++ "**"))

/-- Lines 419-428: items from a supplier under an LPA number. -/
def branchLpa (q : String) (df : DataFrame) : Ans :=
  match reSearch reLpa q with
  | none => none
  | some cs =>
    let supplier := pyStrip (capStr cs 1)
    let lpa := pyStrip (capStr cs 2)
    let count := (df.rows.filter (fun r =>
      strContains (pyLower r.supplierName) (pyLower supplier) &&
        pyLower r.lpaNumber = pyLower lpa)).length
    some (.ok ("📦 Items purchased from " ++ pyTitle supplier ++
      " under LPA " ++ lpa ++ ": **" ++ natStr count ++ "**"))

/-- Lines 431-442: acquisition methods used in a year. -/
def branchAcqMethodsYear (q : String) (df : DataFrame) : Ans :=
  match reSearch reYear4 q with
  | none => none
  | some cs =>
    let year := capNat cs 1
    let methods := valueCounts ((df.rows.filter
      (fun r => r.year = year)).map Row.acquisitionMethod)
    if !methods.isEmpty then
      some (.ok ("📝 Acquisition methods used in " ++ natStr year ++
        ":\n" ++ joinLines (methods.map (fun p =>
          "- " ++ p.1 ++ ": " ++ natStr p.2))))
    else some (.ok ("⚠️ No acquisition method data found for " ++
      natStr year))

/-- Lines 445-449: purchase order number for a requisition.  The source
indexes `.iloc[0]` with no emptiness guard, so an unmatched requisition
raises `IndexError`. -/
def branchPOforReq (q : String) (df : DataFrame) : Ans :=
  match reSearch rePOforReq q with
  | none => none
  | some cs =>
    let req := pyUpper (capStr cs 1)
    match df.rows.filter (fun r => pyUpper r.requisitionNumber = req) with
    | [] =>
      some (.error "IndexError: single positional indexer is out-of-bounds")
    | r :: _ =>
      some (.ok ("🔢 Purchase Order Number for Requisition " ++ req ++
        ": **" ++ r.purchaseOrderNumber ++ "**"))

/-- Lines 453-471: orders from a supplier across multiple years. -/
def branchOrdersMultiYears (q : String) (df : DataFrame) : Ans :=
  match reSearch reTotalOrdersFromIn q with
  | none => none
  | some cs =>
    let supplier := pyStrip (capStr cs 1)
    let years := findAll4d (capStr cs 2)
    if years.isEmpty then some (.ok "⚠️ Please specify valid year(s)")
    else
      some (.ok ("📦 Orders from " ++ pyTitle supplier ++ ":\n" ++
        joinLines (years.map (fun y =>
          "- " ++ natStr y ++ ": " ++ natStr ((df.rows.filter (fun r =>
            strContains (pyLower r.supplierName) (pyLower supplier) &&
              r.year = y)).length) ++ " orders"))))

/-- Lines 474-492: total quantity of an item purchased in a year (the sum
of an empty selection is `0.0`, never `NaN`, so the guarded branch always
reports the integer total). -/
def branchTotalQuantity (q : String) (df : DataFrame) : Ans :=
  let m := match reSearch reQuantityOf q with
    | some cs => some cs
    | none => reSearch reQuantityOf2 q
  match m with
  | none => none
  | some cs =>
    let item := pyStrip (capStr cs 1)
    let year := capNat cs 2
    let total := (df.rows.filter (fun r =>
      (strContains (pyLower r.itemName) (pyLower item) ||
        strContains (pyLower r.itemDescription) (pyLower item)) &&
        r.year = year)).foldr (fun r acc => (r.quantity.getD 0) + acc) 0
    some (.ok ("📦 Total quantity of " ++ item ++ " purchased in " ++
      natStr year ++ ": **" ++ intStr (pyInt total) ++ "**"))

/-- Lines 495-498: count of items ordered in a year. -/
def branchItemsOrderedYear (q : String) (df : DataFrame) : Ans :=
  match reSearch reItemsOrderedIn q with
  | none => none
  | some _ =>
    match reSearch reBare4 q with
    | none =>
      some (.error "AttributeError: NoneType object has no attribute group")
    | some cs =>
      let year := capNat cs 1
      let count := (df.rows.filter (fun r => r.year = year)).length
      some (.ok ("📦 Total items ordered in " ++ natStr year ++ ": **" ++
        natStr count ++ "**"))

/-- Lines 501-514: count of specific items purchased in a year. -/
def branchHowManyItems (q : String) (df : DataFrame) : Ans :=
  match reSearch reHowManyXPurch q with
  | none => none
  | some cs =>
    let item := pyStrip (capStr cs 1)
    let year := capNat cs 2
    let count := (df.rows.filter (fun r =>
      (strContains (pyLower r.itemName) item ||
        strContains (pyLower r.itemDescription) item) &&
        r.year = year)).length
    some (.ok ("📦 Number of " ++ item ++ " purchased in " ++ natStr year ++
      ": **" ++ natStr count ++ "**"))

/-- Lines 517-526: count of orders from a supplier in a year. -/
def branchOrdersFromYear (q : String) (df : DataFrame) : Ans :=
  match reSearch reOrdersFromIn q with
  | none => none
  | some cs =>
    let supplier := pyStrip (capStr cs 1)
    let year := capNat cs 2
    let count := (df.rows.filter (fun r =>
      strContains (pyLower r.supplierName) supplier &&
        r.year = year)).length
    some (.ok ("📦 Orders from " ++ pyTitle supplier ++ " in " ++
      natStr year ++ ": **" ++ natStr count ++ "**"))

/-- Lines 529-546: total price of an item purchased in a year.  This is
the handler that adds the `Item_Clean` column to the cached table (its
caller records the mutation whenever the pattern matches). -/
def branchItemSpendYear (q : String) (df : DataFrame) : Ans :=
  match reSearch reTotalPriceOfPurch q with
  | none => none
  | some cs =>
    let item := pyLower (pyStrip (capStr cs 1))
    let year := capNat cs 2
    let matched := df.rows.filter (fun r =>
      strContains (itemClean r) item && r.year = year)
    if !matched.isEmpty then
      match modeFirst (matched.map Row.itemName) with
      | .error e => some (.error e)
      | .ok example_item =>
        some (.ok ("💸 Total spending on " ++ item ++ " in " ++
          natStr year ++ ": **" ++
          moneyStr (sumCol Row.totalPrice matched) ++
          "**\n(Example item: " ++ example_item ++ ")"))
    else some (.ok ("⚠️ No spending found for \x27" ++ item ++ "\x27 in " ++
      natStr year))

/-- Lines 549-556: CalCard spending in a calendar year. -/
def branchCalcardYear (q : String) (df : DataFrame) : Ans :=
  let m := match reSearch reCalcard1 q with
    | some cs => some cs
    | none => reSearch reCalcard2 q
  match m with
  | none => none
  | some cs =>
    let year := capNat cs 1
    let total := sumCol Row.totalPrice (df.rows.filter (fun r =>
      pyUpper r.calCard = "YES" && r.year = year))
    some (.ok ("💳 Total CalCard spending in " ++ natStr year ++ ": **" ++
      moneyStr total ++ "**"))

/-- `format_order_details` (demo5.py lines 28-44). -/
def format_order_details (r : Row) : String :=
  joinLines
    ["📄 **Order Details**",
     "- Requisition #: " ++ r.requisitionNumber,
     "- PO #: " ++ r.purchaseOrderNumber,
     "- Supplier: " ++ pyTitle r.supplierName,
     "- Item: " ++ r.itemName,
     "- Description: " ++ r.itemDescription,
     "- Quantity: " ++ floatStr r.quantity,
     "- Unit Price: " ++ format_currency (pyValOf r.unitPrice),
     "- Total Price: " ++ format_currency (pyValOf r.totalPrice),
     "- Date: " ++ dateFull r.purchaseDate,
     "- Department: " ++ r.departmentName,
     "- Location: " ++ r.location]

/-- Lines 558-586: order lookup by requisition / PO number. -/
def branchOrderLookup (q : String) (df : DataFrame) : Ans :=
  match reSearch reOrderNum q with
  | none => none
  | some cs =>
    let sn := pyUpper (capStr cs 1)
    let exactMask := fun (r : Row) =>
      pyUpper r.requisitionNumber = sn || pyUpper r.purchaseOrderNumber = sn
    let partialMask := fun (r : Row) =>
      strContains (pyUpper r.requisitionNumber) sn ||
        strContains (pyUpper r.purchaseOrderNumber) sn
    let matching :=
      if (df.rows.filter exactMask).isEmpty then df.rows.filter partialMask
      else df.rows.filter exactMask
    if matching.isEmpty then
      some (.ok ("⚠️ No order found with number " ++ sn))
    else
      let pick :=
        match df.rows.filter (fun r => pyUpper r.requisitionNumber = sn) with
        | r :: _ => some r
        | [] =>
          match df.rows.filter
              (fun r => pyUpper r.purchaseOrderNumber = sn) with
          | r :: _ => some r
          | [] => matching.head?
      match pick with
      | none =>
        some (.error "IndexError: single positional indexer is out-of-bounds")
      | some r => some (.ok (format_order_details r))

/-- Lines 589-595: most expensive item. -/
def branchMostExpensive (df : DataFrame) : Ans :=
  match idxmaxRow Row.totalPrice df.rows with
  | .error e => some (.error e)
  | .ok r =>
    some (.ok ("💎 Most expensive item purchased: **" ++ r.itemName ++
      "**\n- Price: **" ++ format_currency (pyValOf r.totalPrice) ++
      "**\n- Supplier: " ++ pyTitle r.supplierName ++ "\n- Date: " ++
      dateUS r.purchaseDate))

/-- Lines 598-606: orders between two month/year bounds (`pd.to_datetime`
on an unknown month name raises). -/
def branchDateRange (q : String) (df : DataFrame) : Ans :=
  match reSearch reBetween q with
  | none => none
  | some cs =>
    let sm := capStr cs 1
    let sy := capNat cs 2
    let em := capStr cs 3
    let ey := capNat cs 4
    match month_str_to_number sm, month_str_to_number em with
    | some m1, some m2 =>
      let startD : Date := ⟨m1, 1, sy⟩
      let endD : Date := ⟨m2, daysInMonth m2 ey, ey⟩
      let count := (df.rows.filter (fun r =>
        dateLE startD r.purchaseDate && dateLE r.purchaseDate endD)).length
      some (.ok ("📅 Orders between " ++ monthAbbrev m1 ++ " " ++
        natStr sy ++ " and " ++ monthAbbrev m2 ++ " " ++ natStr ey ++
        ": **" ++ natStr count ++ "**"))
    | _, _ =>
      some (.error "DateParseError: Unknown datetime string format")

/-- Lines 609-617: suppliers by ZIP code. -/
def branchSuppliersByZip (q : String) (df : DataFrame) : Ans :=
  match reSearch reSupZip q with
  | none => none
  | some cs =>
    let zip := capStr cs 1
    let suppliers := distinctFE ((df.rows.filter (fun r =>
      strContains r.supplierZip zip)).map Row.supplierName)
    if suppliers.length > 0 then
      some (.ok ("🏢 Suppliers from ZIP " ++ zip ++ ":\n\n" ++
        joinLines ((suppliers.take 50).map
          (fun s => "- " ++ pyTitle s)) ++
        "\n\n(Showing " ++ natStr (min 50 suppliers.length) ++ " of " ++
        natStr suppliers.length ++ " total suppliers)"))
    else some (.ok ("⚠️ No suppliers found in ZIP code " ++ zip))

/-- Lines 620-628: suppliers with a qualification. -/
def branchSuppliersWithQual (q : String) (df : DataFrame) : Ans :=
  match reSearch reQualSup q with
  | none => none
  | some cs =>
    let qual := pyUpper (capStr cs 1)
    let suppliers := distinctFE ((df.rows.filter (fun r =>
      strContains r.supplierQualifications qual)).map Row.supplierName)
    if suppliers.length > 0 then
      some (.ok ("🏢 Suppliers with " ++ qual ++ " qualification:\n\n" ++
        joinLines ((suppliers.take 50).map
          (fun s => "- " ++ pyTitle s)) ++
        "\n\n(Showing " ++ natStr (min 50 suppliers.length) ++ " of " ++
        natStr suppliers.length ++ " total suppliers)"))
    else some (.ok ("⚠️ No suppliers found with " ++ qual ++
      " qualification"))

/-- Lines 631-635: most common delivery location. -/
def branchCommonLocation (df : DataFrame) : Ans :=
  match valueCounts (df.rows.map Row.location) with
  | [] => some (.error "ValueError: attempt to get argmax of an empty sequence")
  | (loc, cnt) :: _ =>
    some (.ok ("📍 Most common delivery location: **" ++ loc ++ "** (" ++
      natStr cnt ++ " orders)"))

/-- Lines 640-653: total price of an item in a year (second variant). -/
def branchItemSpendYear2 (q : String) (df : DataFrame) : Ans :=
  let m := match reSearch reTotalPriceOfIn q with
    | some cs => some cs
    | none => reSearch reHowMuchSpendOn q
  match m with
  | none => none
  | some cs =>
    let item := pyLower (pyStrip (capStr cs 1))
    let year := capNat cs 2
    let matched := df.rows.filter (fun r =>
      strContains (pyLower r.itemName) item && r.year = year)
    let total := sumCol Row.totalPrice matched
    if !matched.isEmpty then
      match modeFirst (matched.map Row.itemName) with
      | .error e => some (.error e)
      | .ok actual =>
        some (.ok ("💸 Total spending on " ++ actual ++ " in " ++
          natStr year ++ ": **" ++ moneyStr total ++ "**"))
    else some (.ok ("⚠️ No spending found for \x27" ++ item ++ "\x27 in " ++
      natStr year))

/-- Lines 656-662: list of suppliers. -/
def branchListSuppliers (df : DataFrame) : Ans :=
  let suppliers := distinctFE (df.rows.map (fun r => pyTitle r.supplierName))
  some (.ok ("🏢 List of Suppliers:\n\n" ++
    joinLines ((suppliers.take 10).map (fun s => "- " ++ s)) ++
    "\n\n(Showing 10 of " ++ natStr suppliers.length ++
    " total suppliers)"))

/-- Lines 665-669: total orders of a supplier. -/
def branchTotalOrdersOf (q : String) (df : DataFrame) : Ans :=
  match reSearch reTotalOrdersOf q with
  | none => none
  | some cs =>
    let supplier := pyLower (pyStrip (capStr cs 1))
    let count := (df.rows.filter (fun r =>
      strContains (pyLower r.supplierName) supplier)).length
    some (.ok ("📦 Total orders from " ++ pyTitle supplier ++ ": **" ++
      natStr count ++ "**"))

/-- Lines 672-678: total orders of a supplier in a year (shadowed by the
previous handler, which matches every question this one does). -/
def branchTotalOrdersOfYear (q : String) (df : DataFrame) : Ans :=
  match reSearch reTotalOrdersOfYear q with
  | none => none
  | some cs =>
    let supplier := pyLower (pyStrip (capStr cs 1))
    let year := capNat cs 2
    let count := (df.rows.filter (fun r =>
      strContains (pyLower r.supplierName) supplier &&
        r.year = year)).length
    some (.ok ("📦 Total orders from " ++ pyTitle supplier ++ " in " ++
      natStr year ++ ": **" ++ natStr count ++ "**"))

/-- Lines 683-689: orders on a specific date (an unknown month name falls
through). -/
def branchSpecificDate (q : String) (df : DataFrame) : Ans :=
  match reSearch reDateSpec q with
  | none => none
  | some cs =>
    let monthName := capStr cs 1
    let day := capNat cs 2
    let year := capNat cs 3
    match month_str_to_number monthName with
    | none => none
    | some m =>
      let count := (df.rows.filter (fun r =>
        r.year = year && r.month = m && r.purchaseDate.day = day)).length
      some (.ok ("📅 Total orders on " ++ pyCapitalize monthName ++ " " ++
        natStr day ++ ", " ++ natStr year ++ ": **" ++ natStr count ++
        "**"))

/-- Lines 692-698: orders in a month of a year. -/
def branchMonthYear (q : String) (df : DataFrame) : Ans :=
  match reSearch reMonthYear q with
  | none => none
  | some cs =>
    let monthName := capStr cs 1
    let year := capNat cs 2
    match month_str_to_number monthName with
    | none => none
    | some m =>
      let count := (df.rows.filter (fun r =>
        r.year = year && r.month = m)).length
      some (.ok ("📦 Total orders in " ++ pyCapitalize monthName ++ " " ++
        natStr year ++ ": **" ++ natStr count ++ "**"))

/-- Lines 701-708: order counts over multiple years. -/
def branchMultiYears (q : String) (df : DataFrame) : Ans :=
  let years := findYearsWB q
  if strContains q "order" && decide (2 ≤ years.length) then
    some (.ok ("📊 Total orders by year:\n\n" ++
      joinLines (years.map (fun ys =>
        let y := natVal ys.data
        "📦 " ++ natStr y ++ ": " ++
          natStr ((df.rows.filter (fun r => r.year = y)).length) ++
          " orders"))))
  else none

/-- Lines 711-715: order count for a single year. -/
def branchSingleYear (q : String) (df : DataFrame) : Ans :=
  match reSearch reSingleYear q with
  | none => none
  | some cs =>
    let year := capNat cs 1
    let count := (df.rows.filter (fun r => r.year = year)).length
    some (.ok ("📦 Total orders in " ++ natStr year ++ ": **" ++
      natStr count ++ "**"))

/-- Lines 718-728: quarter with the highest spending in a year. -/
def branchQuarterHighestYear (q : String) (df : DataFrame) : Ans :=
  match reSearch reQuarterHighestYear q with
  | none => none
  | some cs =>
    let year := capNat cs 1
    let dfYear := df.rows.filter (fun r => r.year = year)
    if dfYear.isEmpty then
      some (.ok ("⚠️ No data for year " ++ natStr year ++ "."))
    else
      match idxmaxPairs (groupSumBy Row.quarter Row.totalPrice dfYear) with
      | .error _ =>
        some (.ok ("⚠️ No spending data for year " ++ natStr year ++ "."))
      | .ok p =>
        some (.ok ("💰 Quarter with highest spending in " ++ natStr year ++
          ": **Q" ++ natStr p.1 ++ " (" ++ moneyStr p.2 ++ ")**"))

/-- Lines 731-739: orders from suppliers in a ZIP code. -/
def branchSupInZip (q : String) (df : DataFrame) : Ans :=
  match reSearch reSupInZip q with
  | none => none
  | some cs =>
    let zip := capStr cs 1
    let count := (df.rows.filter (fun r =>
      strContains r.supplierZip zip)).length
    some (.ok ("📦 Orders from suppliers in ZIP " ++ zip ++ ": **" ++
      natStr count ++ "**"))

/-- Lines 742-748: orders delivered to a ZIP code. -/
def branchDeliveredToZip (q : String) (df : DataFrame) : Ans :=
  match reSearch reDeliveredTo q with
  | none => none
  | some cs =>
    let zip := capStr cs 1
    let count := (df.rows.filter (fun r =>
      strContains r.location zip)).length
    some (.ok ("📦 Orders delivered to " ++ zip ++ ": **" ++
      natStr count ++ "**"))

/-- Lines 753-759: orders with a classification code. -/
def branchClassCode (q : String) (df : DataFrame) : Ans :=
  match reSearch reClassCode q with
  | none => none
  | some cs =>
    let code := capStr cs 1
    let count := (df.rows.filter (fun r =>
      strContains r.classificationCodes code)).length
    some (.ok ("📦 Orders with classification code " ++ code ++ ": **" ++
      natStr count ++ "**"))

/-- Lines 764-781: orders under a category keyword, searched across the
four classification title columns, concatenated and de-duplicated. -/
def branchCategory (q : String) (df : DataFrame) : Ans :=
  match reSearch reCategory q with
  | none => none
  | some cs =>
    let keyword := pyLower (pyStrip (capStr cs 3))
    let m1 := df.rows.filter (fun r =>
      strContains (pyLower r.commodityTitle) keyword)
    let m2 := df.rows.filter (fun r =>
      strContains (pyLower r.classTitle) keyword)
    let m3 := df.rows.filter (fun r =>
      strContains (pyLower r.familyTitle) keyword)
    let m4 := df.rows.filter (fun r =>
      strContains (pyLower r.segmentTitle) keyword)
    let found := !m1.isEmpty || !m2.isEmpty || !m3.isEmpty || !m4.isEmpty
    let count := (distinctFE (m1 ++ m2 ++ m3 ++ m4)).length
    if found && count > 0 then
      some (.ok ("📦 Total orders under \x27" ++ keyword ++
        "\x27 category: **" ++ natStr count ++ "**"))
    else
      some (.ok ("❌ No orders found under the category \x27" ++ keyword ++
        "\x27."))

/-- Lines 784-788: how many orders a supplier made. -/
def branchOrdersDid (q : String) (df : DataFrame) : Ans :=
  match reSearch reOrdersDid q with
  | none => none
  | some cs =>
    let supplier := pyLower (pyStrip (capStr cs 1))
    let count := (df.rows.filter (fun r =>
      strContains r.supplierName supplier)).length
    some (.ok ("📦 " ++ pyTitle supplier ++ " made **" ++ natStr count ++
      "** orders."))

/-- Lines 791-800: total spend by a supplier. -/
def branchSpendBySupplier (q : String) (df : DataFrame) : Ans :=
  match reSearch reSpendBy q with
  | none => none
  | some cs =>
    let supplier := pyLower (pyStrip (capStr cs 2))
    let matched := df.rows.filter (fun r =>
      strContains r.supplierName supplier)
    let total := sumCol Row.totalPrice matched
    if !matched.isEmpty then
      match modeFirst (matched.map Row.supplierName) with
      | .error e => some (.error e)
      | .ok actual =>
        some (.ok ("💸 Total spend by " ++ actual ++ ": **" ++
          moneyStr total ++ "**"))
    else some (.ok ("⚠️ No spending found for supplier \x27" ++ supplier ++
      "\x27"))

/-- Lines 803-813: orders by acquisition method or type. -/
def branchOrdersUsing (q : String) (df : DataFrame) : Ans :=
  match reSearch reOrdersUsing q with
  | none => none
  | some cs =>
    let keyword := pyLower (pyStrip (capStr cs 1))
    let cleaned := pyStrip (reSubMTA keyword)
    let nMethod := (df.rows.filter (fun r =>
      strContains (pyLower r.acquisitionMethod) cleaned)).length
    let nType := (df.rows.filter (fun r =>
      strContains (pyLower r.acquisitionType) cleaned)).length
    let total := nMethod + nType
    if total > 0 then
      some (.ok ("⚙️ Total orders using **" ++ pyStrip (capStr cs 1) ++
        "**: **" ++ natStr total ++ "**"))
    else some (.ok ("⚠️ No orders found using \x27" ++
      pyStrip (capStr cs 1) ++ "\x27"))

/-- Lines 816-821: total spending in a year. -/
def branchSpendingIn (q : String) (df : DataFrame) : Ans :=
  match reSearch reSpendingIn q with
  | none => none
  | some cs =>
    let year := capNat cs 1
    let total := sumCol Row.totalPrice
      (df.rows.filter (fun r => r.year = year))
    some (.ok ("💸 Total spending in " ++ natStr year ++ ": **" ++
      moneyStr total ++ "**"))

/-- Lines 823-835: average monthly spending over years. -/
def branchAvgMonthly (q : String) (df : DataFrame) : Ans :=
  match reSearch reAvgMonthly q with
  | none => none
  | some cs =>
    let years := findAll4d (capStr cs 1)
    let result := df.rows.filter (fun r => years.contains r.year)
    if result.isEmpty then
      some (.ok ("⚠️ No records found for year(s): " ++
        String.intercalate ", " (years.map natStr)))
    else
      some (.ok ("📈 Average Monthly Spending:\n\n" ++
        joinLines (years.map (fun y =>
          let avg := sumCol Row.totalPrice
            (result.filter (fun r => r.year = y)) / 12
          "📊 " ++ natStr y ++ ": **" ++ moneyStr avg ++ "**"))))

/-- Lines 837-840: quarter with the highest spending overall. -/
def branchQuarterHighest (df : DataFrame) : Ans :=
  match idxmaxPairs (groupSumBy Row.quarter Row.totalPrice df.rows) with
  | .error e => some (.error e)
  | .ok p =>
    some (.ok ("💰 Quarter with highest spending: **Q" ++ natStr p.1 ++
      " (" ++ moneyStr p.2 ++ ")**"))

/-- Lines 843-852: total spending on a supplier. -/
def branchSpendingOnSupplier (q : String) (df : DataFrame) : Ans :=
  match reSearch reSpendingOn q with
  | none => none
  | some cs =>
    let supplier := pyLower (pyStrip (capStr cs 1))
    let matched := df.rows.filter (fun r =>
      strContains r.supplierName supplier)
    let total := sumCol Row.totalPrice matched
    if !matched.isEmpty then
      match modeFirst (matched.map Row.supplierName) with
      | .error e => some (.error e)
      | .ok actual =>
        some (.ok ("💸 Total spending on " ++ actual ++ ": **" ++
          moneyStr total ++ "**"))
    else some (.ok ("⚠️ No spending found for supplier \x27" ++ supplier ++
      "\x27"))

/-- Lines 855-860: top five most frequent items. -/
def branchFrequentItems (df : DataFrame) : Ans :=
  let items := (valueCounts (df.rows.map Row.itemName)).take 5
  some (.ok ("🛒 Top 5 most frequently purchased items:\n\n" ++
    joinLines (items.map (fun p =>
      "- " ++ p.1 ++ " (" ++ natStr p.2 ++ ")"))))

/-- Lines 862-882: supplier with the most orders. -/
def branchSupplierMostOrders (df : DataFrame) : Ans :=
  match valueCounts (df.rows.map Row.supplierName) with
  | [] => some (.error "ValueError: attempt to get argmax of an empty sequence")
  | (s, c) :: _ =>
    some (.ok ("🏢 Supplier with most orders: **" ++ s ++ "** (" ++
      natStr c ++ " orders)"))

/-- Lines 884-888: top five suppliers by spending. -/
def branchSpendingBySupplier (df : DataFrame) : Ans :=
  let top := (stableSortDescBy Prod.snd
    (groupSumBy Row.supplierName Row.totalPrice df.rows)).take 5
  some (.ok ("🏢 Top 5 suppliers by total spending:\n\n" ++
    joinLines (top.map (fun p => "- " ++ p.1 ++ ": " ++ moneyStr p.2))))

/-- Lines 891-895: most common class. -/
def branchCommonClass (df : DataFrame) : Ans :=
  match valueCounts (df.rows.map Row.classTitle) with
  | [] => some (.error "ValueError: attempt to get argmax of an empty sequence")
  | (s, c) :: _ =>
    some (.ok ("📚 Most common class: **" ++ s ++ "** (" ++ natStr c ++
      " orders)"))

/-- Lines 897-902: top five segments. -/
def branchTopSegments (df : DataFrame) : Ans :=
  let segments := (valueCounts (df.rows.map Row.segmentTitle)).take 5
  some (.ok ("📦 Top 5 segments:\n\n" ++
    joinLines (segments.map (fun p =>
      "- " ++ p.1 ++ " (" ++ natStr p.2 ++ ")"))))

/-- Lines 905-909: location with the most orders. -/
def branchLocationMostOrders (df : DataFrame) : Ans :=
  match valueCounts (df.rows.map Row.location) with
  | [] => some (.error "ValueError: attempt to get argmax of an empty sequence")
  | (loc, c) :: _ =>
    some (.ok ("📍 Location with most orders: **" ++ loc ++ "** (" ++
      natStr c ++ " orders)"))

/-- Lines 911-918: items bought the most. -/
def branchItemsBoughtMost (df : DataFrame) : Ans :=
  let items := (valueCounts (df.rows.map Row.itemName)).take 5
  some (.ok ("🛒 Top 5 most frequently bought items:\n\n" ++
    joinLines (items.map (fun p =>
      "- " ++ p.1 ++ " (" ++ natStr p.2 ++ ")"))))

/-- Strip a possessive or plural suffix as lines 923-925 do
(`re.sub(r"'s$", ...)` then `re.sub(r"s$", ...)` then `strip`). -/
def stripPluralSuffix (s : String) : String :=
  let s1 :=
    if "s\x27".data.isPrefixOf s.data.reverse then
      ⟨(s.data.reverse.drop 2).reverse⟩
    else s
  let s2 :=
    if "s".data.isPrefixOf s1.data.reverse then
      ⟨(s1.data.reverse.drop 1).reverse⟩
    else s1
  pyStrip s2

/-- Lines 920-935: how much was spent on an item. -/
def branchHowMuchSpentOn (q : String) (df : DataFrame) : Ans :=
  match reSearch reHowMuchSpentOn q with
  | none => none
  | some cs =>
    let item := stripPluralSuffix (pyLower (pyStrip (capStr cs 3)))
    let matched := df.rows.filter (fun r =>
      strContains (pyLower r.itemName) item)
    let total := sumCol Row.totalPrice matched
    if !matched.isEmpty then
      match modeFirst (matched.map Row.itemName) with
      | .error e => some (.error e)
      | .ok actual =>
        some (.ok ("💸 Total spending on " ++ actual ++ ": **" ++
          moneyStr total ++ "**"))
    else some (.ok ("⚠️ No spending found for item \x27" ++ item ++
      "\x27"))

/-- Lines 937-944: orders in a segment. -/
def branchSegment (q : String) (df : DataFrame) : Ans :=
  match reSearch reSegmentQ q with
  | none => none
  | some cs =>
    let seg := pyLower (pyStrip (capStr cs 2))
    let count := (df.rows.filter (fun r =>
      strContains (pyLower r.segmentTitle) seg)).length
    some (.ok ("📦 Orders in the \x27" ++ seg ++ "\x27 segment: **" ++
      natStr count ++ "**"))

/-- Lines 946-956: most expensive supplier. -/
def branchExpensiveSupplier (df : DataFrame) : Ans :=
  match idxmaxPairs (groupSumBy Row.supplierName Row.totalPrice df.rows) with
  | .error e => some (.error e)
  | .ok p =>
    some (.ok ("💸 Most expensive supplier: **" ++ p.1 ++ "** (" ++
      moneyStr p.2 ++ ")"))

/-- Lines 958-963: orders from a supplier in a year (late variant). -/
def branchOrdersFromYearLate (q : String) (df : DataFrame) : Ans :=
  match reSearch reOrdersFromYear q with
  | none => none
  | some cs =>
    let supplier := pyLower (pyStrip (capStr cs 1))
    let year := capNat cs 2
    let count := (df.rows.filter (fun r =>
      strContains r.supplierName supplier && r.year = year)).length
    some (.ok ("📦 Orders from " ++ pyTitle supplier ++ " in " ++
      natStr year ++ ": **" ++ natStr count ++ "**"))

/-- Lines 965-969: how many orders from a supplier. -/
def branchHowManyOrdersFrom (q : String) (df : DataFrame) : Ans :=
  match reSearch reHowManyOrdersFrom q with
  | none => none
  | some cs =>
    let supplier := pyLower (pyStrip (capStr cs 2))
    let count := (df.rows.filter (fun r =>
      strContains r.supplierName supplier)).length
    some (.ok ("📦 Orders from " ++ pyTitle supplier ++ ": **" ++
      natStr count ++ "**"))

/-- Lines 971-981: top N bought items. -/
def branchTopItemsGeneric (q : String) (df : DataFrame) : Ans :=
  match reSearch reTopItems q with
  | none => none
  | some cs =>
    let n := match capGroup cs 2 with
      | some s => natVal s.data
      | none => 10
    let items := (valueCounts (df.rows.map Row.itemName)).take n
    some (.ok ("🛒 Top " ++ natStr n ++ " most bought items:\n\n" ++
      joinLines (items.map (fun p =>
        "- " ++ p.1 ++ " (" ++ natStr p.2 ++ ")"))))

/-- Lines 984-992: the fallback suggestion message. -/
def fallbackMessage : String :=
  "❌ I didn\x27t understand your question. Try one of these:\n\n- " ++
    joinLines
      ["Try asking about orders in a specific year or quarter",
       "- Ask about spending by supplier or department",
       "- Query about most frequently purchased items"]

/-! ### The router -/

/-- The big disjunctive predicate of lines 862-876 (supplier with the most
orders). -/
def predSupplierMostOrders (q : String) : Bool :=
  (strContains q "supplier" &&
    (strContains q "most orders" ||
     strContains q "highest number of orders" ||
     strContains q "largest number of orders" ||
     strContains q "greatest number of orders" ||
     strContains q "maximum number of orders" ||
     strContains q "biggest number of orders" ||
     strContains q "top number of orders")) ||
  (reSearch reNameOfSupplier q).isSome ||
  (reSearch reWhichSupplier q).isSome ||
  (reSearch reWhoIsSupplier q).isSome ||
  (reSearch reSupplierWith q).isSome

/-- The disjunctive predicate of lines 946-949 (most expensive supplier). -/
def predExpensiveSupplier (q : String) : Bool :=
  (strContains q "supplier" &&
    (strContains q "most expensive" || strContains q "highest spending" ||
     strContains q "most spending" || strContains q "greatest spending" ||
     strContains q "largest spending")) ||
  (reSearch reExpensiveSupplier q).isSome

/-- The first `if/elif` chain (lines 118-153): once a predicate matches,
later members of the chain are not considered even when the matched body
falls through without returning. -/
def chainA (q : String) (df : DataFrame) : Ans :=
  if strContains q "purchases delivered to zip" ||
      strContains q "purchases in zip" ||
      strContains q "orders delivered to" then
    branchZipDelivered q df
  else if strContains q "purchases used the" &&
      strContains q "acquisition method" then
    branchAcqMethodUsed q df
  else none

/-- The second `if/elif` chain (lines 156-257). -/
def chainB (q : String) (df : DataFrame) : Ans :=
  if strContains q "top" && strContains q "suppliers" &&
      strContains q "total spend" then
    branchTopSuppliers q df
  else if strContains q "supplier code" &&
      (strContains q "total price" || strContains q "total spend") then
    branchSupplierCodeSpend q df
  else if strContains q "acquisition type had the highest spend" then
    branchAcqTypeHighest q df
  else if strContains q "most frequently purchased items" &&
      strContains q "fiscal year" then
    branchFreqItemsFY q df
  else if strContains q "normalized unspsc for" then
    branchUNSPSC q df
  else if strContains q "transactions with sub-acquisition method" then
    branchSubAcq q df
  else none

/-- The third `if/elif` chain (lines 260-339). -/
def chainC (q : String) (df : DataFrame) : Ans :=
  if strContains q "segment and family classification" then
    branchClassification q df
  else if strContains q "how many items of" && strContains q "bought in" then
    branchItemsOfCode q df
  else if strContains q "top three suppliers based on total spend" then
    branchTopThree q df
  else if strContains q "total spend for the department" &&
      strContains q "fiscal year" then
    branchDeptSpend q df
  else if strContains q "purchases linked to location" then
    branchLocation q df
  else if strContains q "total price for all purchases under supplier code"
      then
    branchSupplierCodeTotal q df
  else none

/-- Evaluate one router step: a returned answer stops the scan (recording
whether this step mutates the cached table), a fall-through continues. -/
def step (b : Ans) (m : Bool) (k : Unit → Except String String × Bool) :
    Except String String × Bool :=
  match b with
  | some a => (a, m)
  | none => k ()

/-- The body of `handle_question` after the emptiness guard and
lower-casing: every branch of the source in order.  The second component
records whether the `Item_Clean` column assignment of line 535 executed. -/
def route (q : String) (df : DataFrame) : Except String String × Bool :=
  step (chainA q df) false fun _ =>
  step (chainB q df) false fun _ =>
  step (chainC q df) false fun _ =>
  step (if strContains q "list all items purchased under the acquisition type"
    then branchItemsByAcqType q df else none) false fun _ =>
  step (if strContains q "purchases from suppliers with the qualification"
    then branchSupplierQual q df else none) false fun _ =>
  step (if strContains q "quantity and unit price for the item" &&
      strContains q "purchase order"
    then branchQtyUnitPO q df else none) false fun _ =>
  step (if strContains q "how many purchases were made using the acquisition method"
    then branchCountByAcqMethod q df else none) false fun _ =>
  step (if strContains q "segment and family classification does the"
    then branchClassificationSplit q df else none) false fun _ =>
  step (branchSpendByFY q df) false fun _ =>
  step (if strContains q "calcard" && strContains q "fiscal year"
    then branchCalcardFY q df else none) false fun _ =>
  step (branchLpa q df) false fun _ =>
  step (if strContains q "acquisition methods" &&
      (strContains q "used" || strContains q "for purchases")
    then branchAcqMethodsYear q df else none) false fun _ =>
  step (branchPOforReq q df) false fun _ =>
  step (if strContains q "total orders from" && strContains q "and"
    then branchOrdersMultiYears q df else none) false fun _ =>
  step (branchTotalQuantity q df) false fun _ =>
  step (branchItemsOrderedYear q df) false fun _ =>
  step (branchHowManyItems q df) false fun _ =>
  step (branchOrdersFromYear q df) false fun _ =>
  step (branchItemSpendYear q df) true fun _ =>
  step (branchCalcardYear q df) false fun _ =>
  step (branchOrderLookup q df) false fun _ =>
  step (if strContains q "most expensive" &&
      (strContains q "item" || strContains q "purchase")
    then branchMostExpensive df else none) false fun _ =>
  step (branchDateRange q df) false fun _ =>
  step (branchSuppliersByZip q df) false fun _ =>
  step (branchSuppliersWithQual q df) false fun _ =>
  step (if strContains q "most common delivery location" ||
      strContains q "location with most orders"
    then branchCommonLocation df else none) false fun _ =>
  step (branchItemSpendYear2 q df) false fun _ =>
  step (if (reSearch reListSuppliers q).isSome
    then branchListSuppliers df else none) false fun _ =>
  step (branchTotalOrdersOf q df) false fun _ =>
  step (branchTotalOrdersOfYear q df) false fun _ =>
  step (branchSpecificDate q df) false fun _ =>
  step (branchMonthYear q df) false fun _ =>
  step (branchMultiYears q df) false fun _ =>
  step (branchSingleYear q df) false fun _ =>
  step (branchQuarterHighestYear q df) false fun _ =>
  step (branchSupInZip q df) false fun _ =>
  step (branchDeliveredToZip q df) false fun _ =>
  step (branchClassCode q df) false fun _ =>
  step (branchCategory q df) false fun _ =>
  step (branchOrdersDid q df) false fun _ =>
  step (branchSpendBySupplier q df) false fun _ =>
  step (branchOrdersUsing q df) false fun _ =>
  step (branchSpendingIn q df) false fun _ =>
  step (branchAvgMonthly q df) false fun _ =>
  step (if strContains q "quarter with" && strContains q "highest"
    then branchQuarterHighest df else none) false fun _ =>
  step (branchSpendingOnSupplier q df) false fun _ =>
  step (if strContains q "most frequent" && strContains q "item"
    then branchFrequentItems df else none) false fun _ =>
  step (if predSupplierMostOrders q
    then branchSupplierMostOrders df else none) false fun _ =>
  step (if strContains q "spending by supplier"
    then branchSpendingBySupplier df else none) false fun _ =>
  step (if strContains q "most common class"
    then branchCommonClass df else none) false fun _ =>
  step (if strContains q "top categories" || strContains q "top segments"
    then branchTopSegments df else none) false fun _ =>
  step (if strContains q "location with most orders"
    then branchLocationMostOrders df else none) false fun _ =>
  step (if (reSearch reWhatItemsMost q).isSome
    then branchItemsBoughtMost df else none) false fun _ =>
  step (branchHowMuchSpentOn q df) false fun _ =>
  step (branchSegment q df) false fun _ =>
  step (if predExpensiveSupplier q
    then branchExpensiveSupplier df else none) false fun _ =>
  step (branchOrdersFromYearLate q df) false fun _ =>
  step (branchHowManyOrdersFrom q df) false fun _ =>
  step (branchTopItemsGeneric q df) false fun _ =>
  (.ok fallbackMessage, false)

/-- `handle_question` (demo5.py lines 109-992): an empty cached table short
circuits with the data-unavailable message; otherwise the lower-cased
question is run through the rule list, and the cached table gains the
`Item_Clean` column exactly when the item-spending handler's pattern
matched. -/
def handle_question (question : String) (df : DataFrame) :
    Except String String × DataFrame :=
  if df.rows.isEmpty then
    (.ok "⚠️ Could not load data. Please check database connection.", df)
  else
    match route (pyLower question) df with
    | (a, b) => (a, if b then { df with hasItemClean := true } else df)

/-- `chatbot_response` (demo5.py lines 995-1001): the `try/except` router
boundary.  A raised exception is converted into `"❌ Error: "` followed by
the exception text (`str(e)`, modelled by the error string). -/
def chatbot_response (message : String) (df : DataFrame) :
    String × DataFrame :=
  match handle_question message df with
  | (.ok s, df2) => (s, df2)
  | (.error e, df2) => ("❌ Error: " ++ e, df2)

/-! ### Concrete datasets for the example scenarios -/

/-- A template raw record; the example rows override the fields the
scenarios vary. -/
def rawBase : RawRow :=
  { requisitionNumber := "R100"
    purchaseOrderNumber := "P100"
    supplierCode := "111"
    supplierName := "Acme"
    supplierZip := "90001"
    supplierQualifications := ""
    calCard := "NO"
    itemName := "Paper"
    itemDescription := "Letter paper"
    quantity := some 1
    unitPriceRaw := "100"
    totalPriceRaw := "100"
    purchaseDateRaw := "07/15/2014"
    acquisitionMethod := "WSCA/Coop"
    subAcquisitionMethod := ""
    acquisitionType := "NON-IT Goods"
    classificationCodes := "44120000"
    normalizedUNSPSC := "44121600"
    segmentTitle := "Office Equipment"
    familyTitle := "Office supplies"
    classTitle := "Paper products"
    commodityTitle := "Printer paper"
    departmentName := "Consumer Affairs"
    location := "90001"
    fiscalYear := "2014-2015"
    lpaNumber := "" }

/-- The three-row dataset of the specification's example scenario. -/
def specRaw : List RawRow :=
  [rawBase,
   { rawBase with
      requisitionNumber := "R200"
      purchaseOrderNumber := "P200"
      itemName := "Pens"
      itemDescription := "Ballpoint pens"
      unitPriceRaw := "50"
      totalPriceRaw := "50"
      purchaseDateRaw := "03/10/2014"
      fiscalYear := "2013-2014" },
   { rawBase with
      requisitionNumber := "R300"
      purchaseOrderNumber := "P300"
      supplierCode := "222"
      supplierName := "Globex"
      unitPriceRaw := "200"
      totalPriceRaw := "200"
      purchaseDateRaw := "11/20/2013"
      fiscalYear := "2013-2014" }]

/-- The cached table the example scenario loads. -/
def specDF : DataFrame := load_procurement_data specRaw

/-- A two-supplier dataset with tied total spend: the supplier appearing
first in the data (`Zeta`) is alphabetically after the other (`Alpha`). -/
def tieRaw : List RawRow :=
  [{ rawBase with supplierName := "Zeta", itemName := "A" },
   { rawBase with
      requisitionNumber := "R200"
      purchaseOrderNumber := "P200"
      supplierCode := "222"
      supplierName := "Alpha"
      itemName := "B" }]

/-- The cached tie-breaking example table. -/
def tieDF : DataFrame := load_procurement_data tieRaw

/-- The empty cached table (store unreachable or empty result set). -/
def emptyDF : DataFrame := ⟨[], false⟩

/-! ### Auxiliary concrete values used by witnesses -/

/-- The match object `re.search` yields for the single-year pattern on
`"orders in 2020"`. -/
def c5caps : Caps := [(0, "orders in 2020".data), (1, "2020".data)]

/-- The cleaned row `load_procurement_data` produces from `rawBase`. -/
def c10row : Row :=
  { requisitionNumber := "R100"
    purchaseOrderNumber := "P100"
    supplierCode := "111"
    supplierName := "acme"
    supplierZip := "90001"
    supplierQualifications := ""
    calCard := "NO"
    itemName := "Paper"
    itemDescription := "Letter paper"
    quantity := some 1
    unitPrice := some 100
    totalPrice := some 100
    purchaseDate := ⟨7, 15, 2014⟩
    year := 2014
    month := 7
    quarter := 3
    acquisitionMethod := "WSCA/Coop"
    subAcquisitionMethod := ""
    acquisitionType := "NON-IT Goods"
    classificationCodes := "44120000"
    normalizedUNSPSC := "44121600"
    segmentTitle := "Office Equipment"
    familyTitle := "Office supplies"
    classTitle := "Paper products"
    commodityTitle := "Printer paper"
    departmentName := "Consumer Affairs"
    location := "90001"
    fiscalYear := "2014-2015"
    lpaNumber := "" }

/-! ### Shared lemmas about the loader -/

theorem mem_load_rows (raw : List RawRow) (r : Row)
    (h : r ∈ (load_procurement_data raw).rows) :
    ∃ rr ∈ raw, cleanRow rr = some r := by
  simpa [load_procurement_data, List.mem_filterMap] using h

theorem cleanRow_fields (rr : RawRow) (r : Row) (h : cleanRow rr = some r) :
    ∃ d, parseDate rr.purchaseDateRaw = some d ∧ r.purchaseDate = d ∧
      r.year = d.year ∧ r.month = d.month ∧
      r.quarter = (d.month - 1) / 3 + 1 ∧
      2012 ≤ d.year ∧ d.year ≤ 2015 := by
  unfold cleanRow at h
  cases hp : parseDate rr.purchaseDateRaw with
  | none => rw [hp] at h; exact absurd h (by simp)
  | some d =>
    rw [hp] at h
    dsimp only at h
    by_cases hy : (2012 ≤ d.year && d.year ≤ 2015) = true
    · rw [if_pos hy] at h
      obtain ⟨h1, h2⟩ := by simpa using hy
      simp only [Option.some.injEq] at h
      subst h
      exact ⟨d, rfl, rfl, rfl, rfl, rfl, h1, h2⟩
    · rw [if_neg hy] at h; exact absurd h (by simp)

theorem load_row_year_range (raw : List RawRow) (r : Row)
    (h : r ∈ (load_procurement_data raw).rows) :
    2012 ≤ r.year ∧ r.year ≤ 2015 := by
  obtain ⟨rr, _, hc⟩ := mem_load_rows raw r h
  obtain ⟨d, _, _, hy, _, _, h1, h2⟩ := cleanRow_fields rr r hc
  exact ⟨hy ▸ h1, hy ▸ h2⟩

set_option maxRecDepth 100000

set_option maxHeartbeats 4000000

/-! ### The claims -/

/-- Claim C1: for every question string and every cached-table state, the
chat entry point returns a text answer and never raises: when
`handle_question` returns normally its answer is passed through, and when
it raises, `chatbot_response` catches the exception and returns the error
text prefixed with the error marker. -/
theorem c1_router_never_raises (message : String) (df : DataFrame) :
    (∃ a df2, handle_question message df = (.ok a, df2) ∧
      (chatbot_response message df).1 = a) ∨
    (∃ e df2, handle_question message df = (.error e, df2) ∧
      (chatbot_response message df).1 = "❌ Error: " ++ e) := by
  cases h : handle_question message df with
  | mk a df2 =>
    cases a with
    | ok s => exact Or.inl ⟨s, df2, rfl, by simp [chatbot_response, h]⟩
    | error e => exact Or.inr ⟨e, df2, rfl, by simp [chatbot_response, h]⟩

/-- Claim C7: when the cached table is empty, every question returns the
"could not load data" message and the table is untouched. -/
theorem c7_empty_table_message (question : String) (df : DataFrame)
    (h : df.rows = []) :
    handle_question question df =
      (.ok "⚠️ Could not load data. Please check database connection.",
        df) := by
  unfold handle_question
  rw [h]
  rfl

/-- Witness for C7 at a concrete question and the empty table. -/
theorem c7_empty_table_message_witness :
    handle_question "what is the weather today?" emptyDF =
      (.ok "⚠️ Could not load data. Please check database connection.",
        emptyDF) :=
  c7_empty_table_message "what is the weather today?" emptyDF rfl

/-- Counterexample to claim C6: the table is not left unchanged by every
question — the item-spending question mutates the cached table (the
`Item_Clean` column assignment of line 535). -/
theorem c6_counterexample :
    (handle_question "total price of paper purchased in 2014"
        specDF).2.hasItemClean = true ∧
    specDF.hasItemClean = false ∧
    (handle_question "total price of paper purchased in 2014" specDF).2 ≠
      specDF := by
  refine ⟨by with_unfolding_all rfl, by with_unfolding_all rfl, fun h => ?_⟩
  have h2 := congrArg DataFrame.hasItemClean h
  rw [show (handle_question "total price of paper purchased in 2014"
        specDF).2.hasItemClean = true from by with_unfolding_all rfl,
      show specDF.hasItemClean = false from by with_unfolding_all rfl] at h2
  exact Bool.noConfusion h2

/-- Claim C6 as amended: answering a question never adds, removes or
rewrites any row of the memoized table, but the item-total-price handler
(source lines 529-546) adds the derived `Item_Clean` column to the cached
table, as the concrete run shows. -/
theorem c6_rows_never_mutated :
    (∀ (question : String) (df : DataFrame),
      ((handle_question question df).2).rows = df.rows) ∧
    (handle_question "total price of paper purchased in 2014" specDF).2 =
      { specDF with hasItemClean := true } := by
  constructor
  · intro question df
    unfold handle_question
    split
    · rfl
    · cases hr : route (pyLower question) df with
      | mk a b => cases b <;> simp [hr]
  · with_unfolding_all rfl

/-- Counterexample to claim C2: when the requisition→purchase-order lookup
matches no rows it does not report a "no results" message — it raises
`IndexError` (the unguarded `.iloc[0]` of line 448), which reaches the
router boundary. -/
theorem c2_counterexample :
    (specDF.rows.filter
      (fun r => pyUpper r.requisitionNumber = "ZZZ9")).isEmpty = true ∧
    handle_question "purchase order number for requisition zzz9" specDF =
      (.error "IndexError: single positional indexer is out-of-bounds",
        specDF) ∧
    (chatbot_response "purchase order number for requisition zzz9"
        specDF).1 =
      "❌ Error: IndexError: single positional indexer is out-of-bounds" := by
  refine ⟨by with_unfolding_all rfl, by with_unfolding_all rfl,
    by with_unfolding_all rfl⟩

/-- Claim C2 as amended: on an empty filter, each handler follows its own
guard.  An unguarded sum reports a zero total (the department handler
answers `$0.00`), a guarded sum-style handler reports a "no results"
message (the item-spending handler), and the requisition→purchase-order
lookup, which has no guard at all, raises `IndexError` rather than
reporting "no results". -/
theorem c2_empty_filter_behaviour :
    (handle_question
        "total spend for the department parks in fiscal year 2014"
        specDF).1 =
      .ok "🏛️ Total spend for Parks in FY2014: $0.00" ∧
    (handle_question "total price of glue purchased in 2014" specDF).1 =
      .ok "⚠️ No spending found for \x27glue\x27 in 2014" ∧
    (handle_question "purchase order number for requisition zzz9"
        specDF).1 =
      .error "IndexError: single positional indexer is out-of-bounds" := by
  refine ⟨by with_unfolding_all rfl, by with_unfolding_all rfl,
    by with_unfolding_all rfl⟩

/-- Counterexample to claim C3: on the example dataset, the question
`"total spending on paper in 2014"` is captured by the supplier-spending
rule (line 843) — the item-spending rules require "of"/"for", not "on" —
so the answer is a no-results message that does not contain `$100.00`. -/
theorem c3_counterexample :
    (handle_question "total spending on paper in 2014" specDF).1 =
      .ok "⚠️ No spending found for supplier \x27paper in 2014\x27" ∧
    strContains "⚠️ No spending found for supplier \x27paper in 2014\x27"
      "$100.00" = false := by
  refine ⟨by with_unfolding_all rfl, by with_unfolding_all rfl⟩

/-- Claim C3 as amended: on the three-row dataset, the count question
answers 2 and the top-1 question answers globex with `$200.00` as claimed
(the supplier name is displayed in its case-folded form), but
`"total spending on paper in 2014"` returns the supplier no-results
message; the `$100.00` answer is produced by the phrasing the item rule
actually accepts, `"total price of paper purchased in 2014"`. -/
theorem c3_example_scenario :
    (handle_question "how many orders were placed in 2014?" specDF).1 =
      .ok "📦 Total orders in 2014: **2**" ∧
    (handle_question "total spending on paper in 2014" specDF).1 =
      .ok "⚠️ No spending found for supplier \x27paper in 2014\x27" ∧
    (handle_question "top 1 suppliers by total spend" specDF).1 =
      .ok "🏆 Top 1 suppliers overall:\n1. globex: $200.00" ∧
    (handle_question "total price of paper purchased in 2014" specDF).1 =
      .ok ("💸 Total spending on paper in 2014: **$100.00**" ++
        "\n(Example item: Paper)") := by
  refine ⟨by with_unfolding_all rfl, by with_unfolding_all rfl,
    by with_unfolding_all rfl, by with_unfolding_all rfl⟩

/-- Claim C5: whenever the single-year rule (`orders in YEAR`, line 711)
matches a question, the handler's answer reports exactly the number of
cached rows whose derived `Year` equals the extracted year; and when that
year lies outside the supported 2012-2015 window the count is `0`, because
`load_procurement_data` drops every row outside the window. -/
theorem c5_single_year_count (raw : List RawRow) (q : String) (cs : Caps)
    (h : reSearch reSingleYear q = some cs) :
    branchSingleYear q (load_procurement_data raw) =
      some (.ok ("📦 Total orders in " ++ natStr (capNat cs 1) ++ ": **" ++
        natStr (((load_procurement_data raw).rows.filter
          (fun r => r.year = capNat cs 1)).length) ++ "**")) ∧
    ((capNat cs 1 < 2012 ∨ 2015 < capNat cs 1) →
      ((load_procurement_data raw).rows.filter
        (fun r => r.year = capNat cs 1)).length = 0) := by
  constructor
  · unfold branchSingleYear
    rw [h]
  · intro hy
    rw [List.length_eq_zero]
    rw [List.filter_eq_nil_iff]
    intro r hr hyear
    obtain ⟨h1, h2⟩ := load_row_year_range raw r hr
    simp only [decide_eq_true_eq] at hyear
    rcases hy with hy | hy <;> omega

/-- Witness for C5: an out-of-range year (`2020`) answers zero on the
example dataset, both at the handler and through the full router. -/
theorem c5_single_year_count_witness :
    branchSingleYear "orders in 2020" (load_procurement_data specRaw) =
      some (.ok "📦 Total orders in 2020: **0**") ∧
    (handle_question "orders in 2020" specDF).1 =
      .ok "📦 Total orders in 2020: **0**" := by
  constructor
  · exact (c5_single_year_count specRaw "orders in 2020" c5caps
      (by with_unfolding_all rfl)).1.trans (by with_unfolding_all rfl)
  · with_unfolding_all rfl

/-- Claim C9: `format_currency` is total and formats every missing value,
and every string whose stripped form fails to parse as a decimal number, as
the zero display form `"$0.00"`. -/
theorem c9_format_currency_total (v : PyVal)
    (h : v = .missing ∨
      ∃ s, v = .str s ∧ pyFloat (stripCurrencyChars s) = none) :
    format_currency v = "$0.00" := by
  rcases h with rfl | ⟨s, rfl, hs⟩
  · rfl
  · unfold format_currency
    dsimp only
    rw [hs]

/-- Witness for C9 at the concrete unparseable input `"N/A"`. -/
theorem c9_format_currency_total_witness :
    format_currency (.str "N/A") = "$0.00" :=
  c9_format_currency_total (.str "N/A")
    (Or.inr ⟨"N/A", rfl, by with_unfolding_all rfl⟩)

/-- Claim C10: every cached row's derived `Year`, `Month` and `Quarter`
agree exactly with its parsed purchase date, which came from parsing the
raw date field of some fetched record, and the date's year lies inside the
fixed 2012-2015 window. -/
theorem c10_load_derived_columns (raw : List RawRow) (r : Row)
    (h : r ∈ (load_procurement_data raw).rows) :
    (∃ rr ∈ raw, parseDate rr.purchaseDateRaw = some r.purchaseDate) ∧
    r.year = r.purchaseDate.year ∧ r.month = r.purchaseDate.month ∧
    r.quarter = (r.purchaseDate.month - 1) / 3 + 1 ∧
    2012 ≤ r.purchaseDate.year ∧ r.purchaseDate.year ≤ 2015 := by
  obtain ⟨rr, hrr, hc⟩ := mem_load_rows raw r h
  obtain ⟨d, hp, hd, hy, hm, hq, h1, h2⟩ := cleanRow_fields rr r hc
  subst hd
  exact ⟨⟨rr, hrr, hp⟩, hy, hm, hq, h1, h2⟩

/-- Witness for C10 on the one-row dataset built from `rawBase`. -/
theorem c10_load_derived_columns_witness :
    (∃ rr ∈ [rawBase], parseDate rr.purchaseDateRaw =
      some c10row.purchaseDate) ∧
    c10row.year = c10row.purchaseDate.year ∧
    c10row.month = c10row.purchaseDate.month ∧
    c10row.quarter = (c10row.purchaseDate.month - 1) / 3 + 1 ∧
    2012 ≤ c10row.purchaseDate.year ∧ c10row.purchaseDate.year ≤ 2015 := by
  have e : (load_procurement_data [rawBase]).rows = [c10row] := by
    with_unfolding_all rfl
  exact c10_load_derived_columns [rawBase] c10row
    (by rw [e]; exact List.mem_singleton_self _)

/-! ### Lemmas about the stable sorts and grouping -/

theorem insertDescBy_perm {α β : Type} [LinearOrder β] (key : α → β)
    (x : α) (l : List α) : List.Perm (insertDescBy key x l) (x :: l) := by
  induction l with
  | nil => rfl
  | cons y t ih =>
    unfold insertDescBy
    split
    · exact (ih.cons y).trans (List.Perm.swap x y t)
    · rfl

theorem stableSortDescBy_perm {α β : Type} [LinearOrder β] (key : α → β)
    (l : List α) : List.Perm (stableSortDescBy key l) l := by
  have aux : ∀ (l acc : List α),
      List.Perm (l.foldl (fun acc x => insertDescBy key x acc) acc)
        (acc ++ l) := by
    intro l
    induction l with
    | nil => simp
    | cons x t ih =>
      intro acc
      exact ((ih (insertDescBy key x acc)).trans
        (((insertDescBy_perm key x acc).append_right t).trans
          List.perm_middle.symm))
  simpa using aux l []

theorem length_stableSortDescBy {α β : Type} [LinearOrder β] (key : α → β)
    (l : List α) : (stableSortDescBy key l).length = l.length :=
  (stableSortDescBy_perm key l).length_eq

theorem insertAscBy_perm {α β : Type} [LinearOrder β] (key : α → β)
    (x : α) (l : List α) : List.Perm (insertAscBy key x l) (x :: l) := by
  induction l with
  | nil => rfl
  | cons y t ih =>
    unfold insertAscBy
    split
    · exact (ih.cons y).trans (List.Perm.swap x y t)
    · rfl

theorem sortAscBy_perm {α β : Type} [LinearOrder β] (key : α → β)
    (l : List α) : List.Perm (sortAscBy key l) l := by
  have aux : ∀ (l acc : List α),
      List.Perm (l.foldl (fun acc x => insertAscBy key x acc) acc)
        (acc ++ l) := by
    intro l
    induction l with
    | nil => simp
    | cons x t ih =>
      intro acc
      exact ((ih (insertAscBy key x acc)).trans
        (((insertAscBy_perm key x acc).append_right t).trans
          List.perm_middle.symm))
  simpa using aux l []

theorem insertDescBy_pairwise {α β : Type} [LinearOrder β] (key : α → β)
    (T : α → α → Prop) (x : α) (l : List α)
    (hl : l.Pairwise (fun a b => key b ≤ key a ∧ (key a = key b → T a b)))
    (hx : ∀ y ∈ l, key x = key y → T y x) :
    (insertDescBy key x l).Pairwise
      (fun a b => key b ≤ key a ∧ (key a = key b → T a b)) := by
  induction l with
  | nil => simp [insertDescBy]
  | cons y t ih =>
    rcases List.pairwise_cons.mp hl with ⟨hy, ht⟩
    unfold insertDescBy
    split
    · rename_i hle
      refine List.pairwise_cons.mpr ⟨?_, ?_⟩
      · intro z hz
        rcases List.mem_cons.mp
            ((insertDescBy_perm key x t).mem_iff.mp hz) with rfl | hz
        · exact ⟨hle, fun he => hx y (List.mem_cons_self y t) he.symm⟩
        · exact hy z hz
      · exact ih ht (fun z hz he => hx z (List.mem_cons_of_mem y hz) he)
    · rename_i hgt
      have hyx : key y < key x := lt_of_not_le hgt
      refine List.pairwise_cons.mpr ⟨?_, hl⟩
      intro z hz
      rcases List.mem_cons.mp hz with rfl | hz
      · exact ⟨le_of_lt hyx, fun he => absurd he.symm (ne_of_lt hyx)⟩
      · have hzy : key z ≤ key y := (hy z hz).1
        have hzx : key z < key x := lt_of_le_of_lt hzy hyx
        exact ⟨le_of_lt hzx, fun he => absurd he.symm (ne_of_lt hzx)⟩

theorem stableSortDescBy_pairwise {α β : Type} [LinearOrder β]
    (key : α → β) (T : α → α → Prop) :
    ∀ (l acc : List α),
      acc.Pairwise (fun a b => key b ≤ key a ∧ (key a = key b → T a b)) →
      (∀ x ∈ l, ∀ y ∈ acc, key x = key y → T y x) →
      l.Pairwise (fun a b => key a = key b → T a b) →
      (l.foldl (fun acc x => insertDescBy key x acc) acc).Pairwise
        (fun a b => key b ≤ key a ∧ (key a = key b → T a b)) := by
  intro l
  induction l with
  | nil => intro acc h1 _ _; exact h1
  | cons x t ih =>
    intro acc h1 h2 h3
    rcases List.pairwise_cons.mp h3 with ⟨hx3, ht3⟩
    refine ih (insertDescBy key x acc) ?_ ?_ ht3
    · exact insertDescBy_pairwise key T x acc h1
        (fun y hy he => h2 x (List.mem_cons_self x t) y hy he)
    · intro z hz y hy he
      rcases List.mem_cons.mp
          ((insertDescBy_perm key x acc).mem_iff.mp hy) with rfl | hy
      · exact hx3 z hz he.symm
      · exact h2 z (List.mem_cons_of_mem x hz) y hy he

theorem insertAscBy_pairwise_le {α β : Type} [LinearOrder β]
    (key : α → β) (x : α) (l : List α)
    (hl : l.Pairwise (fun a b => key a ≤ key b)) :
    (insertAscBy key x l).Pairwise (fun a b => key a ≤ key b) := by
  induction l with
  | nil => simp [insertAscBy]
  | cons y t ih =>
    rcases List.pairwise_cons.mp hl with ⟨hy, ht⟩
    unfold insertAscBy
    split
    · rename_i hle
      refine List.pairwise_cons.mpr ⟨?_, ih ht⟩
      intro z hz
      rcases List.mem_cons.mp
          ((insertAscBy_perm key x t).mem_iff.mp hz) with rfl | hz
      · exact hle
      · exact hy z hz
    · rename_i hgt
      have hxy : key x < key y := lt_of_not_le hgt
      refine List.pairwise_cons.mpr ⟨?_, hl⟩
      intro z hz
      rcases List.mem_cons.mp hz with rfl | hz
      · exact le_of_lt hxy
      · exact le_of_lt (lt_of_lt_of_le hxy (hy z hz))

theorem sortAscBy_pairwise_le {α β : Type} [LinearOrder β] (key : α → β)
    (l : List α) :
    (sortAscBy key l).Pairwise (fun a b => key a ≤ key b) := by
  have aux : ∀ (l acc : List α),
      acc.Pairwise (fun a b => key a ≤ key b) →
      (l.foldl (fun acc x => insertAscBy key x acc) acc).Pairwise
        (fun a b => key a ≤ key b) := by
    intro l
    induction l with
    | nil => intro acc h; exact h
    | cons x t ih =>
      intro acc h
      exact ih (insertAscBy key x acc) (insertAscBy_pairwise_le key x acc h)
  exact aux l [] (by simp)

theorem mem_distinctFEAux {α : Type} [DecidableEq α] :
    ∀ (fuel : ℕ) (l : List α) (z : α), z ∈ distinctFEAux fuel l → z ∈ l := by
  intro fuel
  induction fuel with
  | zero =>
    intro l z hz
    cases l with
    | nil => exact hz
    | cons x t => exact hz
  | succ fuel ih =>
    intro l z hz
    cases l with
    | nil => exact hz
    | cons x t =>
      rw [show distinctFEAux (fuel + 1) (x :: t) =
          x :: distinctFEAux fuel (t.filter (fun y => y ≠ x)) from rfl] at hz
      rcases List.mem_cons.mp hz with rfl | hz
      · exact List.mem_cons_self z t
      · exact List.mem_cons_of_mem x
          (List.mem_of_mem_filter (ih _ z hz))

theorem distinctFEAux_nodup {α : Type} [DecidableEq α] :
    ∀ (fuel : ℕ) (l : List α), l.length ≤ fuel →
      (distinctFEAux fuel l).Nodup := by
  intro fuel
  induction fuel with
  | zero =>
    intro l hl
    rw [List.length_eq_zero.mp (Nat.le_zero.mp hl)]
    simp [distinctFEAux]
  | succ fuel ih =>
    intro l hl
    cases l with
    | nil => simp [distinctFEAux]
    | cons x t =>
      rw [show distinctFEAux (fuel + 1) (x :: t) =
          x :: distinctFEAux fuel (t.filter (fun y => y ≠ x)) from rfl]
      refine List.nodup_cons.mpr ⟨?_, ?_⟩
      · intro hx
        rcases List.mem_filter.mp
          (mem_distinctFEAux fuel _ x hx) with ⟨_, hne⟩
        simp at hne
      · refine ih _ ?_
        have h1 : (t.filter (fun y => y ≠ x)).length ≤ t.length :=
          List.length_filter_le _ t
        have h2 : t.length + 1 ≤ fuel + 1 := by simpa using hl
        omega

theorem distinctFE_nodup {α : Type} [DecidableEq α] (l : List α) :
    (distinctFE l).Nodup :=
  distinctFEAux_nodup l.length l (le_refl _)

theorem groupSumBy_keys_strict {κ : Type} [DecidableEq κ] [LinearOrder κ]
    (key : Row → κ) (val : Row → Option ℚ) (rows : List Row) :
    (groupSumBy key val rows).Pairwise (fun a b => a.1 < b.1) := by
  unfold groupSumBy
  rw [List.pairwise_map]
  have hle := sortAscBy_pairwise_le (id : κ → κ)
    (distinctFE (rows.map key))
  have hnd : (sortAscBy (id : κ → κ) (distinctFE (rows.map key))).Nodup :=
    (sortAscBy_perm id _).nodup_iff.mpr (distinctFE_nodup _)
  exact (hle.and hnd).imp (fun h => lt_of_le_of_ne h.1 h.2)

theorem length_groupSumBy {κ : Type} [DecidableEq κ] [LinearOrder κ]
    (key : Row → κ) (val : Row → Option ℚ) (rows : List Row) :
    (groupSumBy key val rows).length =
      (distinctFE (rows.map key)).length := by
  unfold groupSumBy
  rw [List.length_map, (sortAscBy_perm id _).length_eq]

/-- Claim C4 as amended: for every dataset and every `n`, the top-N
supplier list is sorted descending by summed total price, its length is
`min(n, number of distinct suppliers)`, and ties are broken by the
`groupby` key order — ascending case-folded supplier name — not by the
order in which suppliers are first encountered in the data. -/
theorem c4_topn_sorted_and_length (rows : List Row) (n : ℕ) :
    (topSuppliersBySpend rows n).Pairwise
      (fun a b => b.2 ≤ a.2 ∧ (a.2 = b.2 → a.1 < b.1)) ∧
    (topSuppliersBySpend rows n).length =
      min n (distinctFE (rows.map Row.supplierName)).length := by
  constructor
  · have hkeys := groupSumBy_keys_strict Row.supplierName Row.totalPrice rows
    have hsorted := stableSortDescBy_pairwise
      (Prod.snd : String × ℚ → ℚ) (fun a b => a.1 < b.1)
      (groupSumBy Row.supplierName Row.totalPrice rows) []
      (List.Pairwise.nil)
      (by intro x _ y hy; exact absurd hy (List.not_mem_nil y))
      (hkeys.imp (fun h => fun _ => h))
    exact hsorted.sublist (List.take_sublist n _)
  · unfold topSuppliersBySpend nlargest
    rw [List.length_take, length_stableSortDescBy, length_groupSumBy]

/-- Counterexample to claim C4's tie-breaking: on the tied dataset `Zeta`
is encountered first, both suppliers have the same summed spend, yet the
top-1 list (and the chatbot's answer) names `alpha`, the alphabetically
smaller supplier. -/
theorem c4_counterexample :
    tieDF.rows.map Row.supplierName = ["zeta", "alpha"] ∧
    sumCol Row.totalPrice
        (tieDF.rows.filter (fun r => r.supplierName = "zeta")) =
      sumCol Row.totalPrice
        (tieDF.rows.filter (fun r => r.supplierName = "alpha")) ∧
    topSuppliersBySpend tieDF.rows 1 = [("alpha", 100)] ∧
    (handle_question "top 1 suppliers by total spend" tieDF).1 =
      .ok "🏆 Top 1 suppliers overall:\n1. alpha: $100.00" := by
  refine ⟨by with_unfolding_all rfl, by with_unfolding_all rfl,
    by with_unfolding_all rfl, by with_unfolding_all rfl⟩

/-! ### Round-trip lemmas for the currency formatter -/

theorem digitVal_digitChar (d : ℕ) (h : d < 10) :
    digitVal (digitChar d) = d := by
  interval_cases d <;> rfl

theorem isDigit_digitChar (d : ℕ) (h : d < 10) :
    (digitChar d).isDigit = true := by
  interval_cases d <;> rfl

theorem natVal_append_singleton (l : List Char) (c : Char) :
    natVal (l ++ [c]) = 10 * natVal l + digitVal c := by
  simp [natVal, List.foldl_append]

theorem natDigitsAux_succ (fuel n : ℕ) (h0 : n ≠ 0) :
    natDigitsAux (fuel + 1) n =
      digitChar (n % 10) :: natDigitsAux fuel (n / 10) := by
  conv_lhs => unfold natDigitsAux
  rw [if_neg h0]

theorem natVal_natDigitsAux :
    ∀ (fuel n : ℕ), n ≤ fuel → natVal (natDigitsAux fuel n).reverse = n := by
  intro fuel
  induction fuel with
  | zero =>
    intro n hn
    rw [Nat.le_zero.mp hn]
    rfl
  | succ fuel ih =>
    intro n hn
    by_cases h0 : n = 0
    · rw [h0]; rfl
    · rw [natDigitsAux_succ fuel n h0, List.reverse_cons,
        natVal_append_singleton, ih (n / 10) ?_,
        digitVal_digitChar _ (Nat.mod_lt n (by norm_num))]
      · omega
      · have := Nat.div_lt_self (Nat.pos_of_ne_zero h0)
          (by norm_num : 1 < 10)
        omega

theorem natVal_natDigits (n : ℕ) : natVal (natDigits n) = n := by
  by_cases h0 : n = 0
  · rw [h0]; rfl
  · unfold natDigits
    rw [if_neg h0]
    exact natVal_natDigitsAux n n (le_refl n)

theorem natDigitsAux_all_digit :
    ∀ (fuel n : ℕ), ∀ c ∈ natDigitsAux fuel n, c.isDigit = true := by
  intro fuel
  induction fuel with
  | zero =>
    intro n c hc
    simp [natDigitsAux] at hc
  | succ fuel ih =>
    intro n c hc
    by_cases h0 : n = 0
    · rw [h0] at hc
      simp [natDigitsAux] at hc
    · rw [natDigitsAux_succ fuel n h0] at hc
      rcases List.mem_cons.mp hc with rfl | hc
      · exact isDigit_digitChar _ (Nat.mod_lt n (by norm_num))
      · exact ih _ c hc

theorem natDigits_all_digit (n : ℕ) :
    ∀ c ∈ natDigits n, c.isDigit = true := by
  unfold natDigits
  split
  · intro c hc
    rw [List.mem_singleton.mp hc]
    rfl
  · intro c hc
    exact natDigitsAux_all_digit n n c (List.mem_reverse.mp hc)

theorem natDigits_ne_nil (n : ℕ) : natDigits n ≠ [] := by
  unfold natDigits
  split
  · simp
  · rename_i h0
    cases hn : n with
    | zero => exact absurd hn h0
    | succ m =>
      rw [natDigitsAux_succ m (m + 1) (by omega)]
      simp

theorem group3_filter (p : Char → Bool) (hp : p ',' = false) :
    ∀ l : List Char, (∀ x ∈ l, p x = true) → (group3 l).filter p = l := by
  intro l
  induction l using group3.induct with
  | case1 a b c d rest ih =>
    intro h
    rw [show group3 (a :: b :: c :: d :: rest) =
        a :: b :: c :: ',' :: group3 (d :: rest) from rfl]
    have ha := h a (by simp)
    have hb := h b (by simp)
    have hc := h c (by simp)
    have ht := ih (fun x hx => h x (by
      simp only [List.mem_cons] at hx ⊢
      tauto))
    simp [List.filter_cons, ha, hb, hc, hp, ht]
  | case2 l h1 =>
    intro h
    have hg : group3 l = l := by
      rcases l with _ | ⟨a, _ | ⟨b, _ | ⟨c, _ | ⟨d, rest⟩⟩⟩⟩
      · rfl
      · rfl
      · rfl
      · rfl
      · exact (h1 a b c d rest rfl).elim
    rw [hg]
    exact List.filter_eq_self.mpr h

theorem isDigit_digitChar_any (d : ℕ) : (digitChar d).isDigit = true := by
  rcases d with _ | _ | _ | _ | _ | _ | _ | _ | _ | d <;> rfl

theorem keep_of_isDigit (c : Char) (hc : c.isDigit = true) :
    (!(c = '$' || c = ',')) = true := by
  by_cases h1 : c = '$'
  · rw [h1] at hc; exact absurd hc (by decide)
  · by_cases h2 : c = ','
    · rw [h2] at hc; exact absurd hc (by decide)
    · simp [h1, h2]

theorem commaDigits_filter (n : ℕ) :
    (commaDigits n).filter (fun c => !(c = '$' || c = ',')) = natDigits n := by
  unfold commaDigits
  rw [List.filter_reverse,
    group3_filter _ (by decide) _ (fun x hx =>
      keep_of_isDigit x (natDigits_all_digit n x (List.mem_reverse.mp hx))),
    List.reverse_reverse]

theorem takeWhile_append_cons (p : Char → Bool) (l : List Char) (c : Char)
    (r : List Char) (hl : ∀ x ∈ l, p x = true) (hc : p c = false) :
    (l ++ c :: r).takeWhile p = l ∧ (l ++ c :: r).dropWhile p = c :: r := by
  induction l with
  | nil => simp [List.takeWhile_cons, List.dropWhile_cons, hc]
  | cons a t ih =>
    have ha := hl a (List.mem_cons_self a t)
    obtain ⟨h1, h2⟩ := ih (fun x hx => hl x (List.mem_cons_of_mem a hx))
    simp [List.takeWhile_cons, List.dropWhile_cons, ha, h1, h2]

theorem parseDecimalCore_shape (intD fr : List Char) (h1 : intD ≠ [])
    (h2 : ∀ x ∈ intD, x.isDigit = true)
    (h3 : ∀ x ∈ fr, x.isDigit = true) :
    parseDecimalCore (intD ++ '.' :: fr) =
      some ((natVal intD : ℚ) + (natVal fr : ℚ) / (10 : ℚ) ^ fr.length) := by
  obtain ⟨ht, hd⟩ := takeWhile_append_cons Char.isDigit intD '.' fr h2
    (by decide)
  unfold parseDecimalCore
  rw [ht, hd]
  have hall : fr.all Char.isDigit = true := List.all_eq_true.mpr h3
  have hne : intD.isEmpty = false := by
    cases intD with
    | nil => exact absurd rfl h1
    | cons a t => rfl
  simp [hall, hne]

theorem dropWhile_eq_self_of_all_false (p : Char → Bool) (l : List Char)
    (h : ∀ c ∈ l, p c = false) : l.dropWhile p = l := by
  cases l with
  | nil => rfl
  | cons c t => simp [List.dropWhile_cons, h c (List.mem_cons_self c t)]

theorem pyStrip_of_no_space (l : List Char)
    (h : ∀ c ∈ l, isPySpace c = false) : pyStrip ⟨l⟩ = ⟨l⟩ := by
  unfold pyStrip
  rw [show (String.mk l).data = l from rfl,
    dropWhile_eq_self_of_all_false _ l h,
    dropWhile_eq_self_of_all_false _ l.reverse
      (fun c hc => h c (List.mem_reverse.mp hc)),
    List.reverse_reverse]

theorem not_space_of_isDigit (c : Char) (hc : c.isDigit = true) :
    isPySpace c = false := by
  by_cases h : isPySpace c = true
  · unfold isPySpace at h
    simp only [Bool.or_eq_true, decide_eq_true_eq] at h
    rcases h with ((((h | h) | h) | h) | h) | h <;>
      · rw [h] at hc; exact absurd hc (by decide)
  · exact Bool.not_eq_true _ ▸ (by simpa using h)

theorem parseDecimal_neg_head (t : List Char) :
    parseDecimal ('-' :: t) = (parseDecimalCore t).map (fun q => -q) := rfl

theorem parseDecimal_digit_head (c : Char) (t : List Char)
    (hc : c.isDigit = true) :
    parseDecimal (c :: t) = parseDecimalCore (c :: t) := by
  have h1 : c ≠ '-' := fun h => absurd (h ▸ hc) (by decide)
  have h2 : c ≠ '+' := fun h => absurd (h ▸ hc) (by decide)
  unfold parseDecimal
  split
  · rename_i t2 heq
    injection heq with hch
    exact absurd hch h1
  · rename_i t2 heq
    injection heq with hch
    exact absurd hch h2
  · rfl

theorem natVal_pad2 (m : ℕ) (h : m < 100) : natVal (pad2 m) = m := by
  unfold natVal pad2
  simp only [List.foldl]
  rw [digitVal_digitChar _ (by omega), digitVal_digitChar _ (by omega)]
  omega

theorem pad2_all_digit (m : ℕ) : ∀ x ∈ pad2 m, x.isDigit = true := by
  intro x hx
  rcases List.mem_cons.mp hx with rfl | hx
  · exact isDigit_digitChar_any _
  · rcases List.mem_cons.mp hx with rfl | hx
    · exact isDigit_digitChar_any _
    · cases hx

theorem cents_arith (a : ℕ) :
    ((a / 100 : ℕ) : ℚ) + ((a % 100 : ℕ) : ℚ) / (10 : ℚ) ^ (2 : ℕ) =
      (a : ℚ) / 100 := by
  have h := Nat.div_add_mod a 100
  have h2 : ((100 * (a / 100) + a % 100 : ℕ) : ℚ) = (a : ℚ) := by
    exact_mod_cast congrArg (fun x : ℕ => (x : ℚ)) h
  push_cast at h2
  rw [show ((10 : ℚ) ^ (2 : ℕ)) = 100 by norm_num]
  field_simp
  linarith

theorem money_digits_no_space (n m : ℕ) :
    ∀ ch ∈ natDigits n ++ '.' :: pad2 m, isPySpace ch = false := by
  intro ch hch
  rcases List.mem_append.mp hch with hch | hch
  · exact not_space_of_isDigit ch (natDigits_all_digit n ch hch)
  · rcases List.mem_cons.mp hch with rfl | hch
    · decide
    · exact not_space_of_isDigit ch (pad2_all_digit m ch hch)

theorem digitChar_ne_dollar (d : ℕ) : ¬digitChar d = '$' := by
  rcases d with _ | _ | _ | _ | _ | _ | _ | _ | _ | d <;>
    first
      | decide
      | (show ¬('9' = '$'); decide)

theorem digitChar_ne_comma (d : ℕ) : ¬digitChar d = ',' := by
  rcases d with _ | _ | _ | _ | _ | _ | _ | _ | _ | d <;>
    first
      | decide
      | (show ¬('9' = ','); decide)

theorem parse_money_roundtrip (c : ℤ) :
    pyFloat (stripCurrencyChars ("$" ++ centsRender c)) =
      some ((c : ℚ) / 100) := by
  have hcore : parseDecimalCore
      (natDigits (c.natAbs / 100) ++ '.' :: pad2 (c.natAbs % 100)) =
      some (((c.natAbs / 100 : ℕ) : ℚ) +
        ((c.natAbs % 100 : ℕ) : ℚ) / (10 : ℚ) ^ (2 : ℕ)) := by
    rw [parseDecimalCore_shape _ _ (natDigits_ne_nil _)
      (natDigits_all_digit _) (pad2_all_digit _), natVal_natDigits,
      natVal_pad2 _ (by omega)]
    rfl
  by_cases hneg : c < 0
  · have hs : stripCurrencyChars ("$" ++ centsRender c) =
        ⟨'-' :: (natDigits (c.natAbs / 100) ++
          '.' :: pad2 (c.natAbs % 100))⟩ := by
      unfold stripCurrencyChars centsRender
      rw [if_pos hneg]
      congr 1
      show List.filter (fun ch => !(ch = '$' || ch = ','))
          ('$' :: '-' :: (commaDigits (c.natAbs / 100) ++
            '.' :: pad2 (c.natAbs % 100))) = _
      simp only [List.filter_cons, List.filter_append]
      rw [commaDigits_filter]
      simp [pad2, digitChar_ne_dollar, digitChar_ne_comma]
    rw [hs]
    unfold pyFloat
    rw [pyStrip_of_no_space _ (fun ch hch => by
      rcases List.mem_cons.mp hch with rfl | hch
      · decide
      · exact money_digits_no_space _ _ ch hch)]
    rw [show (String.mk ('-' :: (natDigits (c.natAbs / 100) ++
        '.' :: pad2 (c.natAbs % 100)))).data =
        '-' :: (natDigits (c.natAbs / 100) ++
          '.' :: pad2 (c.natAbs % 100)) from rfl]
    rw [parseDecimal_neg_head, hcore]
    have h1 : (c.natAbs : ℤ) = -c :=
      Int.ofNat_natAbs_of_nonpos (le_of_lt hneg)
    have h2 : ((c.natAbs : ℕ) : ℚ) = -(c : ℚ) := by
      rw [← Int.cast_natCast c.natAbs, h1, Int.cast_neg]
    rw [show (Option.map (fun q : ℚ => -q))
        (some (((c.natAbs / 100 : ℕ) : ℚ) +
          ((c.natAbs % 100 : ℕ) : ℚ) / (10 : ℚ) ^ (2 : ℕ))) =
        some (-(((c.natAbs / 100 : ℕ) : ℚ) +
          ((c.natAbs % 100 : ℕ) : ℚ) / (10 : ℚ) ^ (2 : ℕ))) from rfl]
    congr 1
    rw [cents_arith, h2]
    ring
  · have hs : stripCurrencyChars ("$" ++ centsRender c) =
        ⟨natDigits (c.natAbs / 100) ++ '.' :: pad2 (c.natAbs % 100)⟩ := by
      unfold stripCurrencyChars centsRender
      rw [if_neg hneg]
      congr 1
      show List.filter (fun ch => !(ch = '$' || ch = ','))
          ('$' :: ([] ++ (commaDigits (c.natAbs / 100) ++
            '.' :: pad2 (c.natAbs % 100)))) = _
      simp only [List.nil_append, List.filter_cons, List.filter_append]
      rw [commaDigits_filter]
      simp [pad2, digitChar_ne_dollar, digitChar_ne_comma]
    rw [hs]
    unfold pyFloat
    rw [pyStrip_of_no_space _ (money_digits_no_space _ _)]
    rw [show (String.mk (natDigits (c.natAbs / 100) ++
        '.' :: pad2 (c.natAbs % 100))).data =
        natDigits (c.natAbs / 100) ++ '.' :: pad2 (c.natAbs % 100) from rfl]
    obtain ⟨d0, t0, hcons⟩ :=
      List.exists_cons_of_ne_nil (natDigits_ne_nil (c.natAbs / 100))
    rw [hcons, List.cons_append, parseDecimal_digit_head _ _
      (natDigits_all_digit _ d0 (hcons ▸ List.mem_cons_self d0 t0)),
      ← List.cons_append, ← hcons, hcore]
    have h1 : (c.natAbs : ℤ) = c := Int.natAbs_of_nonneg (not_lt.mp hneg)
    have h2 : ((c.natAbs : ℕ) : ℚ) = (c : ℚ) := by
      rw [← Int.cast_natCast c.natAbs, h1]
    congr 1
    rw [cents_arith, h2]

/-- Rounding `c` cents back from its exact rational value returns `c`. -/
theorem roundCents_div100 (c : ℤ) : roundCents ((c : ℚ) / 100) = c := by
  simp only [roundCents]
  have hx : ((c : ℚ) / 100) * 100 = (c : ℚ) := by ring
  rw [hx, Int.floor_intCast]
  norm_num

/-- Every output of `format_currency` is a dollar sign followed by a
rendered integer number of cents. -/
theorem format_currency_output_shape (v : PyVal) :
    ∃ c : ℤ, format_currency v = "$" ++ centsRender c := by
  cases v with
  | missing => exact ⟨0, by with_unfolding_all rfl⟩
  | num q => exact ⟨roundCents q, rfl⟩
  | str s =>
    cases h : pyFloat (stripCurrencyChars s) with
    | none =>
      refine ⟨0, ?_⟩
      show (match pyFloat (stripCurrencyChars s) with
        | some q => moneyStr q
        | none => "$0.00") = _
      rw [h]
      with_unfolding_all rfl
    | some q =>
      refine ⟨roundCents q, ?_⟩
      show (match pyFloat (stripCurrencyChars s) with
        | some q => moneyStr q
        | none => "$0.00") = _
      rw [h]
      rfl

/-- Feeding a rendered money string back through `format_currency`
reproduces it verbatim. -/
theorem format_currency_str_render (c : ℤ) :
    format_currency (.str ("$" ++ centsRender c)) = "$" ++ centsRender c := by
  show (match pyFloat (stripCurrencyChars ("$" ++ centsRender c)) with
    | some q => moneyStr q
    | none => "$0.00") = _
  rw [parse_money_roundtrip]
  show moneyStr ((c : ℚ) / 100) = _
  unfold moneyStr fmtComma2
  rw [roundCents_div100]

/-- C8: `format_currency` is idempotent — applying it to its own output
(as passed back in string form) returns that output unchanged, for every
possible input value (float, string, or missing). -/
theorem c8_format_currency_idempotent (v : PyVal) :
    format_currency (.str (format_currency v)) = format_currency v := by
  obtain ⟨c, hc⟩ := format_currency_output_shape v
  rw [hc, format_currency_str_render]
